import Mathlib

/-
Verification development for the record-assembly pipeline of
`src/sleepecg/io/sleep_readers.py` (sleepecg).

The Python module is shallowly embedded:
  * pure helpers (`_parse_nsrr_xml`, the activity length reconciliation, the
    30-second clock rounding, the subject-metadata row transforms) become Lean
    functions over explicit data models of their inputs;
  * the two generator drivers `read_mesa` / `read_shhs` become explicit
    state-passing functions over a file-system record, returning the list of
    yielded records together with an optional terminal exception;
  * CPython exceptions are `Except String` / explicit error fields;
  * floats that carry time/count values are modelled as `ℚ` (exact), and text
    cells whose only use is `int(...)` / `float(...)` conversion are modelled
    as already-tokenised values (`XmlText`, `CsvField`), with "absent" /
    "unparseable" constructors reproducing the CPython conversion errors.

External collaborators (XML file reading, `np.loadtxt`, the NSRR download
API, `edfio.read_edf`, `detect_heartbeats`) are modelled as data carried by an
environment/file-system record, exactly at the interface the spec assigns
them.
-/

namespace SleepECG

/-- Decidable equality for exception-carrying results. -/
instance {ε α : Type} [DecidableEq ε] [DecidableEq α] : DecidableEq (Except ε α) :=
  fun x y =>
    match x, y with
    | .error a, .error b =>
      if h : a = b then .isTrue (by rw [h]) else .isFalse (by simp [h])
    | .ok a, .ok b =>
      if h : a = b then .isTrue (by rw [h]) else .isFalse (by simp [h])
    | .error _, .ok _ => .isFalse (by simp)
    | .ok _, .error _ => .isFalse (by simp)

/-- Whether an exception-carrying result is a success. -/
def exceptIsOk : Except ε α → Bool
  | .ok _ => true
  | .error _ => false

/-- Mapping of AASM sleep stages, from the `SleepStage` IntEnum of the source
(values start at zero and increase with wakefulness). -/
inductive SleepStage where
  | UNDEFINED
  | N3
  | N2
  | N1
  | REM
  | WAKE
deriving DecidableEq, Repr

/-- Integer value of a `SleepStage`, as in the source IntEnum. -/
def SleepStage.toInt : SleepStage → Int
  | .UNDEFINED => 0
  | .N3 => 1
  | .N2 => 2
  | .N1 => 3
  | .REM => 4
  | .WAKE => 5

/-- Mapping of gender to integers, from the `Gender` IntEnum of the source. -/
inductive Gender where
  | FEMALE
  | MALE
deriving DecidableEq, Repr

/-- The `SubjectData` dataclass: every field independently nullable. -/
structure SubjectData where
  gender : Option Gender := none
  age : Option Int := none
  weight : Option ℚ := none
deriving DecidableEq, Repr

/-- The `SleepRecord` dataclass (every field defaults to `None` in the
source; the drivers below always fill the fields they set). Clock times of
day are `(hour, minute, second)` triples. -/
structure SleepRecord where
  sleep_stages : List SleepStage
  sleep_stage_duration : Int
  id : String
  recording_start_time : ℕ × ℕ × ℕ
  heartbeat_times : Option (List ℚ)
  subject_data : Option SubjectData
  activity_counts : Option (List ℚ) := none
deriving DecidableEq, Repr

/-! ## Text-cell models

`_parse_nsrr_xml` consumes element text through `int(...)`, `float(...)` and
`datetime.strptime`.  A text value is modelled by which of these conversions
accepts it:
  * `XmlText.intVal n` — text that `int()` parses (hence `float()` too);
  * `XmlText.floatVal q` — text that `float()` parses but `int()` rejects;
  * `XmlText.raw s` — any other text, in particular the empty default `""`
    that `findtext(..., "")` substitutes for a missing child element.
-/

/-- Model of an XML element's text content, classified by which CPython
numeric conversion accepts it. -/
inductive XmlText where
  | intVal (n : Int)
  | floatVal (q : ℚ)
  | raw (s : String)
deriving DecidableEq, Repr

/-- CPython `int(text)`: succeeds exactly on integer literals. -/
def pyIntOfText : XmlText → Option Int
  | .intVal n => some n
  | _ => none

/-- CPython `float(text)`: succeeds on integer and float literals (and in
particular fails on the empty string `""`). -/
def pyFloatOfText : XmlText → Option ℚ
  | .intVal n => some (n : ℚ)
  | .floatVal q => some q
  | .raw _ => none

/-- Result of `findtext(tag, "")`: a missing element yields the default
empty string, i.e. `XmlText.raw ""`. -/
def findtextD (o : Option XmlText) : XmlText :=
  o.getD (.raw "")

/-- CPython `int(x)` on a float: truncation toward zero (the value is
negative exactly when its numerator is). -/
def pyTrunc (q : ℚ) : Int :=
  if q.num < 0 then ⌈q⌉ else ⌊q⌋

/-- Model of a `ClockTime` element's text as consumed by
`strptime(text.split()[1], "%H.%M.%S")`: `secondTok h m s` stands for text
whose second whitespace token is a valid `H.M.S` time; `badTok` stands for
any text on which the indexing or the parse raises (including the `""`
default used when the element is absent). -/
inductive ClockText where
  | secondTok (h m s : ℕ)
  | badTok
deriving DecidableEq, Repr

/-- Model of one child of the `ScoredEvents` element, carrying the four
sub-element texts that `_parse_nsrr_xml` reads (`None` = absent child). -/
structure ScoredEvent where
  eventType : Option String := none
  eventConcept : Option String := none
  duration : Option XmlText := none
  clockTime : Option ClockText := none
deriving DecidableEq, Repr

/-- Model of a parsed NSRR annotation XML document: the optional
`EpochLength` element text and the children of the `ScoredEvents` element in
document order.  (The first child list element is also the element that
`root.find(".//ScoredEvent")` returns.) -/
structure NsrrXml where
  epochLength : Option XmlText := none
  events : List ScoredEvent := []
deriving DecidableEq, Repr

/-- The `STAGE_MAPPING` dict of `_parse_nsrr_xml`, as a partial lookup
(`none` = `KeyError`). -/
def STAGE_MAPPING (s : String) : Option SleepStage :=
  if s = "Wake|0" then some .WAKE
  else if s = "Stage 1 sleep|1" then some .N1
  else if s = "Stage 2 sleep|2" then some .N2
  else if s = "Stage 3 sleep|3" then some .N3
  else if s = "Stage 4 sleep|4" then some .N3
  else if s = "REM sleep|5" then some .REM
  else if s = "Unscored|9" then some .UNDEFINED
  else none

/-- The `EventConcept` text used by the stage lookup: `findtext` with
default `""`. -/
def conceptD (e : ScoredEvent) : String :=
  e.eventConcept.getD ""

/-- Result record of `_parse_nsrr_xml` (`_ParseNsrrXmlResult`). -/
structure ParseNsrrXmlResult where
  sleep_stages : List SleepStage
  sleep_stage_duration : Int
  recording_start_time : ℕ × ℕ × ℕ
  recording_duration : ℚ
deriving DecidableEq, Repr

/-- Number of epoch copies one staging event contributes:
`int(epoch_duration / epoch_length)` with `epoch_duration = int(float(text))`
and Python true division (`epochLength = 0` raises instead, see
`scanEvents`). -/
def stageCopies (epochLength : Int) (epochDuration : Int) : ℕ :=
  (pyTrunc ((epochDuration : ℚ) / (epochLength : ℚ))).toNat

/-- The start-time part of one loop iteration of `_parse_nsrr_xml`: a
"Recording Start Time" event replaces the tracked start time with its
parsed `ClockTime` (raising on a malformed or absent one, since
`"".split()[1]` raises); any other event leaves it unchanged. -/
def startStep (e : ScoredEvent) (start : Option (ℕ × ℕ × ℕ)) :
    Except String (Option (ℕ × ℕ × ℕ)) :=
  if e.eventConcept = some "Recording Start Time" then
    match e.clockTime with
    | some (.secondTok h m s) => .ok (some (h, m, s))
    | _ => .error "ValueError: strptime"
  else .ok start

/-- The staging part of one loop iteration of `_parse_nsrr_xml`: a
`Stages|Stages` event contributes `[stage] * int(epoch_duration /
epoch_length)` (raising on an unparseable duration, an `EventConcept`
missing from `STAGE_MAPPING`, or a zero epoch length); any other event
contributes nothing. -/
def stagingStep (epochLength : Int) (e : ScoredEvent) :
    Except String (List SleepStage) :=
  if e.eventType = some "Stages|Stages" then
    match pyFloatOfText (findtextD e.duration) with
    | none => .error "ValueError: float"
    | some q =>
      match STAGE_MAPPING (conceptD e) with
      | none => .error "KeyError: EventConcept"
      | some stage =>
        if epochLength = 0 then .error "ZeroDivisionError"
        else .ok (List.replicate (stageCopies epochLength (pyTrunc q)) stage)
  else .ok []

/-- The `for event in root.findall("ScoredEvents")[0]` loop of
`_parse_nsrr_xml`: threads the latest parsed start time and the
accumulated stage list through the events in document order. -/
def scanEvents (epochLength : Int) :
    List ScoredEvent → Option (ℕ × ℕ × ℕ) → List SleepStage →
    Except String (Option (ℕ × ℕ × ℕ) × List SleepStage)
  | [], start, acc => .ok (start, acc)
  | e :: rest, start, acc =>
    match startStep e start with
    | .error err => .error err
    | .ok start' =>
      match stagingStep epochLength e with
      | .error err => .error err
      | .ok block => scanEvents epochLength rest start' (acc ++ block)

/-- Shallow embedding of `_parse_nsrr_xml` (sleep_readers.py lines
110-171): epoch length, recording duration from the first scored event,
then the event scan, then the start-time presence check. -/
def parse_nsrr_xml (x : NsrrXml) : Except String ParseNsrrXmlResult :=
  match x.epochLength with
  | none => .error "RuntimeError: EpochLength not found"
  | some epochText =>
    match pyIntOfText epochText with
    | none => .error "ValueError: int"
    | some epochLength =>
      match x.events.head? with
      | none => .error "RuntimeError: Recording duration not found"
      | some firstEvent =>
        match pyFloatOfText (findtextD firstEvent.duration) with
        | none => .error "ValueError: float"
        | some recordingDuration =>
          match scanEvents epochLength x.events none [] with
          | .error e => .error e
          | .ok (none, _) => .error "RuntimeError: Recording Start Time not found"
          | .ok (some t, stages) => .ok ⟨stages, epochLength, t, recordingDuration⟩

/-- Declarative per-event stage contribution: a staging event whose duration
parses and whose label is mapped contributes its replicated stage block;
any other event contributes nothing.  Used to characterise the imperative
scan. -/
def eventStages (epochLength : Int) (e : ScoredEvent) : List SleepStage :=
  if e.eventType = some "Stages|Stages" then
    match pyFloatOfText (findtextD e.duration), STAGE_MAPPING (conceptD e) with
    | some q, some stage => List.replicate (stageCopies epochLength (pyTrunc q)) stage
    | _, _ => []
  else []

/-! ## Clock rounding (read_mesa, lines 458-467) -/

/-- The `rounding_seconds` expression of `read_mesa`: given the seconds
component of `recording_end_time`, the signed adjustment
`(30 - s % 30) if s % 30 >= 15 else -(s % 30)`. -/
def roundingSeconds (s : ℕ) : Int :=
  if s % 30 ≥ 15 then 30 - (s % 30 : Int) else -(s % 30 : Int)

/-! ## CSV cell model and subject-metadata row transforms -/

/-- Model of a CSV text cell, classified like `XmlText` by which CPython
conversion accepts it; `blank` is the empty string `""`. -/
inductive CsvField where
  | blank
  | intStr (n : Int)
  | floatStr (q : ℚ)
  | other (s : String)
deriving DecidableEq, Repr

/-- CPython `int(cell)` on a CSV cell. -/
def pyIntOfCsv : CsvField → Option Int
  | .intStr n => some n
  | _ => none

/-- CPython `float(cell)` on a CSV cell. -/
def pyFloatOfCsv : CsvField → Option ℚ
  | .intStr n => some (n : ℚ)
  | .floatStr q => some q
  | _ => none

/-- Python truthiness of a CSV cell (`if row["weight"]`): every nonempty
string is truthy. -/
def truthyCsv : CsvField → Bool
  | .blank => false
  | _ => true

/-- The mesa `GENDER_MAPPING` dict (`{0: FEMALE, 1: MALE}`) as a partial
lookup. -/
def mesaGenderLookup (g : Int) : Option Gender :=
  if g = 0 then some .FEMALE else if g = 1 then some .MALE else none

/-- The shhs `GENDER_MAPPING` dict (`{"2": FEMALE, "1": MALE}`) as a partial
lookup; `read_shhs` accesses it with `.get`, so a miss yields `None`. -/
def shhsGenderLookup (g : String) : Option Gender :=
  if g = "2" then some .FEMALE else if g = "1" then some .MALE else none

/-- One row of the mesa subject-data table (`read_mesa` lines 344-349):
`SubjectData(gender=GENDER_MAPPING[gender], age=age)`.  The plain dict
indexing raises `KeyError` on an unmapped gender code. -/
def mesaSubjectDataRow (gender : Int) (age : Int) : Except String SubjectData :=
  match mesaGenderLookup gender with
  | none => .error "KeyError: gender"
  | some g => .ok { gender := some g, age := some age, weight := none }

/-- The shhs age cell: `int(row[col]) if row[col] != "" else None`
(`int()` raises on a non-integer nonblank cell such as `"x"`). -/
def shhsAgeField (age : CsvField) : Except String (Option Int) :=
  if age = CsvField.blank then .ok none
  else match pyIntOfCsv age with
    | some n => .ok (some n)
    | none => .error "ValueError: int"

/-- The shhs1 weight cell: `float(row["weight"]) if row["weight"] else
None`. -/
def shhsWeightField (weight : CsvField) : Except String (Option ℚ) :=
  if truthyCsv weight then
    match pyFloatOfCsv weight with
    | some q => .ok (some q)
    | none => .error "ValueError: float"
  else .ok none

/-- One row of the shhs1 subject-data table (`read_shhs` lines 742-746):
gender via `.get`, age `None` when blank else `int(...)`, weight `None`
when falsy else `float(...)`. -/
def shhsSubjectDataRow1 (gender : String) (age_s1 weight : CsvField) :
    Except String SubjectData :=
  match shhsAgeField age_s1 with
  | .error e => .error e
  | .ok age =>
    match shhsWeightField weight with
    | .error e => .error e
    | .ok w => .ok { gender := shhsGenderLookup gender, age := age, weight := w }

/-- One row of the shhs2 subject-data table (`read_shhs` lines 753-757):
like shhs1 but on `age_s2`, and weight is always `None` (not recorded). -/
def shhsSubjectDataRow2 (gender : String) (age_s2 : CsvField) :
    Except String SubjectData :=
  match shhsAgeField age_s2 with
  | .error e => .error e
  | .ok age => .ok { gender := shhsGenderLookup gender, age := age, weight := none }

/-- A slpdb age/weight token: `None if tok == "x" else int(tok)`. -/
def slpdbNumField (tok : CsvField) : Except String (Option Int) :=
  if tok = CsvField.other "x" then .ok none
  else match pyIntOfCsv tok with
    | some n => .ok (some n)
    | none => .error "ValueError: int"

/-- The slpdb subject-data construction (`read_slpdb` lines 607-612): age
and weight tokens from the header comment line; gender hard-coded `MALE`
(all slpdb subjects were male). -/
def slpdbSubjectData (age weight : CsvField) : Except String SubjectData :=
  match slpdbNumField age with
  | .error e => .error e
  | .ok a =>
    match slpdbNumField weight with
    | .error e => .error e
    | .ok w =>
      .ok { gender := some Gender.MALE, age := a, weight := w.map (fun n => (n : ℚ)) }

/-! ## Activity length reconciliation (read_mesa, lines 489-496) -/

/-- Python list/ndarray slice `l[a:b]` for integer bounds, with the CPython
clamping rules for out-of-range and negative indices. -/
def pySlice (l : List α) (a b : Int) : List α :=
  let n : Int := l.length
  let norm : Int → ℕ := fun i =>
    if i < 0 then (max 0 (n + i)).toNat else (min i n).toNat
  (l.drop (norm a)).take (norm b - norm a)

/-- Length reconciliation of the candidate activity-count slice against the
sleep-stage sequence (`read_mesa` lines 489-496): `none` models the
`abs(diff) > 2` skip; `activity_counts[:-diff]` truncates the tail;
`np.append(activity_counts, activity_counts[diff:])` pads with the (clamped)
last `-diff` values. -/
def alignActivityCounts (activity : List CsvField) (stages : List SleepStage) :
    Option (List CsvField) :=
  let diff : Int := (activity.length : Int) - (stages.length : Int)
  if diff.natAbs > 2 then none
  else if diff > 0 then some (activity.take (activity.length - diff.natAbs))
  else if diff < 0 then
    some (activity ++ activity.drop (activity.length - diff.natAbs))
  else some activity

/-- The final numeric conversion of the aligned activity counts
(`read_mesa` lines 498-499): blank cells are replaced by `"0"` before
`astype(float)`; a non-numeric cell raises. -/
def activityCellToFloat : CsvField → Except String ℚ
  | .blank => .ok 0
  | .intStr n => .ok (n : ℚ)
  | .floatStr q => .ok q
  | .other _ => .error "ValueError: float"

/-! ## File-system and environment model for the generator drivers

The drivers are embedded as explicit state-passing functions: the local data
directory is an association-list record (`MesaFS` / `ShhsFS`, keyed by record
id), the NSRR remote side and the external collaborators (`detect_heartbeats`
and the subject-data csv already read by `np.loadtxt` / `csv.DictReader`) are
an environment record.  `_download_nsrr_file` on a listed file makes the
local copy equal to the remote content; a file absent from the listing makes
the `checksums[...]` dict access raise `KeyError`, as in the source. -/

/-- Store a downloaded/written file into the assoc-list file system. -/
def fsInsert (k : String) (v : α) (l : List (String × α)) : List (String × α) :=
  (k, v) :: l.filter (fun p => p.1 != k)

/-- Delete a file (`Path.unlink`) from the assoc-list file system. -/
def fsErase (k : String) (l : List (String × α)) : List (String × α) :=
  l.filter (fun p => p.1 != k)

/-- Model of one named channel of an `.edf` file, as `edfio.read_edf(...)`
followed by `.get_signal(...)` exposes it. -/
structure EcgSignal where
  data : List ℚ
  sampling_frequency : ℚ
deriving DecidableEq, Repr

/-- One row of a mesa actigraphy csv, carrying the three cells the driver
reads; `line` stands for `int(item["line"])` of the cell text. -/
structure ActRow where
  line : Int
  linetime : String
  activity : CsvField
deriving DecidableEq, Repr

/-- Local files of `<data_dir>/mesa`, keyed by record id: rpoints sidecars
(the `seconds` column that `np.loadtxt(usecols=18)` extracts), cached
heartbeat `.npy` arrays, `.edf` recordings, annotation XMLs, actigraphy
csvs, cached activity-count `.npy` arrays, and the optional overlap file
(rows of `int(entry["mesaid"]), int(entry["line"])`). -/
structure MesaFS where
  rpoints : List (String × List ℚ) := []
  cachedHeartbeats : List (String × List ℚ) := []
  edfs : List (String × EcgSignal) := []
  xmls : List (String × NsrrXml) := []
  activityCsv : List (String × List ActRow) := []
  cachedActivity : List (String × List ℚ) := []
  overlap : Option (List (ℕ × Int)) := none
deriving DecidableEq, Repr

/-- External collaborators of `read_mesa`: the heartbeat detector, the
subject-data csv rows (`mesaid, gender, age` as `np.loadtxt` delivers them),
and the NSRR remote listing with file contents. -/
structure MesaEnv where
  detect : List ℚ → ℚ → List ℕ
  subjectRows : List (ℕ × Int × Int) := []
  remoteRpoints : List (String × List ℚ) := []
  remoteEdfs : List (String × EcgSignal) := []
  remoteXmls : List (String × NsrrXml) := []
  remoteActivity : List (String × List ActRow) := []
  remoteOverlap : List (ℕ × Int) := []

/-- Arguments of `read_mesa` (the `records_pattern` is fixed to the default
`"*"`; `data_dir` is the modelled file system itself). -/
structure MesaArgs where
  heartbeats_source : String := "annotation"
  offline : Bool := false
  keep_edfs : Bool := false
  activity_source : Option String := none
deriving DecidableEq, Repr

/-- Outcome of one per-record phase that produces heartbeat times: skip the
record, abort the whole generator with an exception, or continue with the
times and the updated file system. -/
inductive HbOut where
  | skip
  | fatal (e : String)
  | ok (hb : List ℚ) (fs : MesaFS)
deriving DecidableEq

/-- Conversion of detected heartbeat sample indices to seconds
(`heartbeat_indices / ecg.sampling_frequency`). -/
def detectTimes (detect : List ℚ → ℚ → List ℕ) (sig : EcgSignal) : List ℚ :=
  (detect sig.data sig.sampling_frequency).map
    (fun i => (i : ℚ) / sig.sampling_frequency)

/-- Heartbeat resolution of `read_mesa` (lines 362-407): `annotation` loads
the rpoints sidecar (downloading it when online and listed, else skipping)
and sorts it ascending; `cached` loads the `.npy` cache or skips; `ecg`
downloads the `.edf` when online (a record missing from the listing raises
`KeyError`), runs the detector, caches the times, and unlinks the `.edf`
when it was not available before and `keep_edfs` is false. -/
def mesaHeartbeats (env : MesaEnv) (args : MesaArgs) (fs : MesaFS) (id : String) :
    HbOut :=
  if args.heartbeats_source = "annotation" then
    match fs.rpoints.lookup id with
    | some content => .ok (content.insertionSort (· ≤ ·)) fs
    | none =>
      if !args.offline then
        match env.remoteRpoints.lookup id with
        | some content =>
          .ok (content.insertionSort (· ≤ ·))
            { fs with rpoints := fsInsert id content fs.rpoints }
        | none => .skip
      else .skip
  else if args.heartbeats_source = "cached" then
    match fs.cachedHeartbeats.lookup id with
    | none => .skip
    | some hb => .ok hb fs
  else
    let wasAvailable := (fs.edfs.lookup id).isSome
    let dl : Except String MesaFS :=
      if !args.offline then
        match env.remoteEdfs.lookup id with
        | none => .error "KeyError: checksums"
        | some sig => .ok { fs with edfs := fsInsert id sig fs.edfs }
      else .ok fs
    match dl with
    | .error e => .fatal e
    | .ok fs1 =>
      match fs1.edfs.lookup id with
      | none => .fatal "FileNotFoundError: edf"
      | some sig =>
        let times := detectTimes env.detect sig
        let fs2 :=
          { fs1 with cachedHeartbeats := fsInsert id times fs1.cachedHeartbeats }
        let fs3 :=
          if !wasAvailable && !args.keep_edfs then
            { fs2 with edfs := fsErase id fs2.edfs }
          else fs2
        .ok times fs3

/-- Annotation XML acquisition of `read_mesa` (lines 409-416): when online
the file is (re)downloaded (a record missing from the listing raises
`KeyError` on the checksum dict); when offline a missing local file makes
`ElementTree.parse` raise. -/
def mesaXml (env : MesaEnv) (args : MesaArgs) (fs : MesaFS) (id : String) :
    Except String (NsrrXml × MesaFS) :=
  if !args.offline then
    match env.remoteXmls.lookup id with
    | none => .error "KeyError: checksums"
    | some x => .ok (x, { fs with xmls := fsInsert id x fs.xmls })
  else
    match fs.xmls.lookup id with
    | none => .error "FileNotFoundError: xml"
    | some x => .ok (x, fs)

/-- Outcome of the activity-counts phase. -/
inductive ActOut where
  | skip (fs : MesaFS)
  | fatal (e : String)
  | ok (counts : Option (List ℚ)) (fs : MesaFS)
deriving DecidableEq

/-- Zero-pad a number to two digits, as `strftime` does. -/
def pad2 (n : ℕ) : String :=
  if n < 10 then "0" ++ toString n else toString n

/-- `strftime("%H:%M:%S")`. -/
def timeHMS (h m s : ℕ) : String :=
  pad2 h ++ ":" ++ pad2 m ++ ":" ++ pad2 s

/-- Python `str.lstrip("0")`: drop every leading `'0'` character. -/
def lstrip0 (s : String) : String :=
  s.dropWhile (· == '0')

/-- The rounded recording-end-time label of `read_mesa` (lines 452-468):
end time = start time plus the (fractional) recording duration; its integer
seconds component is rounded by `roundingSeconds`; the result is formatted
`%H:%M:%S` and left-stripped of zeros. -/
def mesaEndTimeStr (start : ℕ × ℕ × ℕ) (duration : ℚ) : String :=
  let total : ℚ := ((start.1 * 3600 + start.2.1 * 60 + start.2.2 : ℕ) : ℚ) + duration
  let t0 : Int := ⌊total⌋
  let endSec : ℕ := (t0 % 60).toNat
  let t : Int := t0 + roundingSeconds endSec
  let tday : Int := t % 86400
  lstrip0 (timeHMS (tday / 3600).toNat ((tday % 3600) / 60).toNat (tday % 60).toNat)

/-- Acquisition of the actigraphy csv (`read_mesa` lines 436-441): online,
the file is downloaded (`KeyError` when absent from the listing); offline
the file system is left untouched. -/
def mesaActivityFetch (env : MesaEnv) (args : MesaArgs) (fs : MesaFS)
    (id : String) : Except String MesaFS :=
  if !args.offline then
    match env.remoteActivity.lookup id with
    | none => .error "KeyError: checksums"
    | some rows => .ok { fs with activityCsv := fsInsert id rows fs.activityCsv }
  else .ok fs

/-- Activity-counts resolution of `read_mesa` (lines 420-500): `cached` mode
loads the per-record cache or skips; `actigraphy` mode derives the mesaid
from the record id, skips on a missing overlap entry, acquires the
actigraphy csv (online download; `KeyError` when unlisted), skips when the
file is still absent, locates the row labelled with the rounded end time
(skipping when absent), slices `activity_data[start_line:end_line]`,
reconciles the length against the sleep stages (skip beyond tolerance 2),
converts cells to float (blank cells become 0), and caches the result. -/
def mesaActivity (env : MesaEnv) (args : MesaArgs) (overlap : List (ℕ × Int))
    (fs : MesaFS) (id : String) (parsed : ParseNsrrXmlResult) : ActOut :=
  if args.activity_source = none then .ok none fs
  else if args.activity_source = some "cached" then
    match fs.cachedActivity.lookup id with
    | none => .skip fs
    | some v => .ok (some v) fs
  else
    match (id.splitOn "-").get? 2 with
    | none => .fatal "IndexError: record id"
    | some tok =>
      match tok.toNat? with
      | none => .fatal "ValueError: int"
      | some mesaid =>
        match overlap.lookup mesaid with
        | none => .skip fs
        | some overlapLine =>
          match mesaActivityFetch env args fs id with
          | .error e => .fatal e
          | .ok fs1 =>
            match fs1.activityCsv.lookup id with
            | none => .skip fs1
            | some rows =>
              let endStr :=
                mesaEndTimeStr parsed.recording_start_time parsed.recording_duration
              match rows.find? (fun row => row.linetime == endStr) with
              | none => .skip fs1
              | some row =>
                let candidate := (pySlice rows (overlapLine + 1) row.line).map (·.activity)
                match alignActivityCounts candidate parsed.sleep_stages with
                | none => .skip fs1
                | some aligned =>
                  match aligned.mapM activityCellToFloat with
                  | .error e => .fatal e
                  | .ok floats =>
                    .ok (some floats)
                      { fs1 with cachedActivity := fsInsert id floats fs1.cachedActivity }

/-- Outcome of one iteration of a driver loop over a file system `σ`. -/
inductive StepOut (σ : Type) where
  | skip (fs : σ)
  | emit (r : SleepRecord) (fs : σ)
  | fatal (e : String)
deriving DecidableEq

/-- Full outcome of advancing a driver generator to exhaustion: the records
yielded before termination, the final file system, and the exception (if
any) that ended the iteration. -/
structure RunResult (σ : Type) where
  yielded : List SleepRecord
  fs : σ
  error : Option String
deriving DecidableEq

/-- One iteration of the `for record_id in requested_records` loop of
`read_mesa` (lines 361-510): heartbeat resolution, annotation acquisition
and parse (an unhandled parse exception aborts the generator), activity
resolution, subject lookup (`KeyError` aborts), then the yield. -/
def mesaStep (env : MesaEnv) (args : MesaArgs)
    (subjects : List (String × SubjectData)) (overlap : List (ℕ × Int))
    (fs : MesaFS) (id : String) : StepOut MesaFS :=
  match mesaHeartbeats env args fs id with
  | .skip => .skip fs
  | .fatal e => .fatal e
  | .ok hb fs1 =>
    match mesaXml env args fs1 id with
    | .error e => .fatal e
    | .ok (x, fs2) =>
      match parse_nsrr_xml x with
      | .error e => .fatal e
      | .ok parsed =>
        match mesaActivity env args overlap fs2 id parsed with
        | .skip fs3 => .skip fs3
        | .fatal e => .fatal e
        | .ok counts fs3 =>
          match subjects.lookup id with
          | none => .fatal "KeyError: subject_data"
          | some sd =>
            .emit
              { sleep_stages := parsed.sleep_stages
                sleep_stage_duration := parsed.sleep_stage_duration
                id := id
                recording_start_time := parsed.recording_start_time
                heartbeat_times := some hb
                subject_data := some sd
                activity_counts := counts } fs3

/-- The requested-records loop of `read_mesa`: a skip advances to the next
id, an emitted record is yielded, an exception terminates the whole
iteration. -/
def mesaLoop (env : MesaEnv) (args : MesaArgs)
    (subjects : List (String × SubjectData)) (overlap : List (ℕ × Int)) :
    MesaFS → List String → RunResult MesaFS
  | fs, [] => ⟨[], fs, none⟩
  | fs, id :: rest =>
    match mesaStep env args subjects overlap fs id with
    | .skip fs' => mesaLoop env args subjects overlap fs' rest
    | .emit r fs' =>
      let res := mesaLoop env args subjects overlap fs' rest
      ⟨r :: res.yielded, res.fs, res.error⟩
    | .fatal e => ⟨[], fs, some e⟩

/-- Resulting file system of a non-fatal iteration outcome. -/
def StepOut.finalFs : StepOut σ → Option σ
  | .skip fs => some fs
  | .emit _ fs => some fs
  | .fatal _ => none

/-- Record id of a mesa subject row: `f"mesa-sleep-{mesaid:04}"`. -/
def mesaRecordKey (mesaid : ℕ) : String :=
  "mesa-sleep-" ++
    (if mesaid < 10 then "000" ++ toString mesaid
     else if mesaid < 100 then "00" ++ toString mesaid
     else if mesaid < 1000 then "0" ++ toString mesaid
     else toString mesaid)

/-- The subject-data dict construction of `read_mesa` (lines 344-349); an
unmapped gender code raises before the record loop starts. -/
def buildMesaSubjects :
    List (ℕ × Int × Int) → Except String (List (String × SubjectData))
  | [] => .ok []
  | (mesaid, gender, age) :: rest => do
    let sd ← mesaSubjectDataRow gender age
    let tail ← buildMesaSubjects rest
    pure ((mesaRecordKey mesaid, sd) :: tail)

/-- Error message of the `heartbeats_source` validation. -/
def invalidHbMsg (hbs : String) : String :=
  "ValueError: Invalid value for parameter heartbeats_source: " ++ hbs

/-- Error message of the `activity_source` validation. -/
def invalidActMsg : String :=
  "ValueError: Invalid value for parameter activity_source"

/-- Python `sorted` on record-id strings. -/
def sortStrings (l : List String) : List String :=
  l.insertionSort (· ≤ ·)

/-- The body of the `read_mesa` generator, run when the returned generator
is first advanced: argument validation, offline overlap-file check, subject
dict construction, then the record loop.  Offline requested records are the
sorted local annotation ids; online they come from the NSRR listing. -/
def readMesaRun (env : MesaEnv) (args : MesaArgs) (fs : MesaFS) : RunResult MesaFS :=
  if args.heartbeats_source ∉ (["annotation", "cached", "ecg"] : List String) then
    ⟨[], fs, some (invalidHbMsg args.heartbeats_source)⟩
  else if args.activity_source ∉
      ([none, some "cached", some "actigraphy"] : List (Option String)) then
    ⟨[], fs, some invalidActMsg⟩
  else if args.activity_source = some "actigraphy" ∧ args.offline ∧ fs.overlap = none then
    ⟨[], fs, some "RuntimeError: Overlap file not found"⟩
  else
    let requested :=
      if args.offline then sortStrings (fs.xmls.map (·.1))
      else env.remoteXmls.map (·.1)
    match buildMesaSubjects env.subjectRows with
    | .error e => ⟨[], fs, some e⟩
    | .ok subjects =>
      let overlap :=
        if args.activity_source = some "actigraphy" then
          (if args.offline then fs.overlap.getD [] else env.remoteOverlap)
        else []
      mesaLoop env args subjects overlap fs requested

/-- Result of calling a Python generator function: CPython either raises
(which for a generator function it never does) or returns a suspended
generator that has executed none of the body. -/
inductive GenCall (β : Type) where
  | raised (e : String)
  | generator (pending : β)
deriving DecidableEq

/-- Whether the call itself raised. -/
def GenCall.isRaised : GenCall β → Bool
  | .raised _ => true
  | .generator _ => false

/-- Calling `read_mesa(...)`: since the function body contains `yield`,
CPython builds a suspended generator capturing the arguments and executes
no body code; `readMesaRun` only runs once the generator is advanced. -/
def readMesaCall (args : MesaArgs) : GenCall MesaArgs :=
  .generator args

/-! ## The read_shhs driver (lines 624-823)

Requested record ids keep their visit-subdirectory prefix
(e.g. `"shhs1/shhs1-200001"`); `record_id[6:]` (here `String.drop 6`)
removes it for the subject lookup and the yielded id.  The
`heartbeat_times` local variable of the loop persists across iterations and
is modelled explicitly, because the `cached` branch of the source tests
that the cache file exists but never loads it. -/

/-- Local files of `<data_dir>/shhs`, keyed by record id (with
subdirectory prefix). -/
structure ShhsFS where
  rpoints : List (String × List ℚ) := []
  cachedHeartbeats : List (String × List ℚ) := []
  edfs : List (String × EcgSignal) := []
  xmls : List (String × NsrrXml) := []
deriving DecidableEq, Repr

/-- External collaborators of `read_shhs`: the detector, the two
subject-data csvs (`nsrrid, gender, age, weight` cells as `csv.DictReader`
delivers them) and the NSRR remote listing. -/
structure ShhsEnv where
  detect : List ℚ → ℚ → List ℕ
  shhs1Rows : List (String × String × CsvField × CsvField) := []
  shhs2Rows : List (String × String × CsvField) := []
  remoteRpoints : List (String × List ℚ) := []
  remoteEdfs : List (String × EcgSignal) := []
  remoteXmls : List (String × NsrrXml) := []

/-- Arguments of `read_shhs`. -/
structure ShhsArgs where
  heartbeats_source : String := "annotation"
  offline : Bool := false
  keep_edfs : Bool := false
deriving DecidableEq, Repr

/-- Outcome of the shhs heartbeat phase: it carries the (possibly
unchanged) `heartbeat_times` loop variable. -/
inductive ShhsHbOut where
  | skip
  | fatal (e : String)
  | ok (hbVar : Option (List ℚ)) (fs : ShhsFS)
deriving DecidableEq

/-- Heartbeat resolution of `read_shhs` (lines 760-803): `annotation` loads
the rpoints sidecar without sorting it; `cached` only tests that the cache
file exists and leaves the `heartbeat_times` variable untouched (this is
what the source does — no `np.load`); `ecg` downloads, detects, caches,
and conditionally unlinks the `.edf` as in mesa. -/
def shhsHeartbeats (env : ShhsEnv) (args : ShhsArgs) (fs : ShhsFS)
    (hbVar : Option (List ℚ)) (id : String) : ShhsHbOut :=
  if args.heartbeats_source = "annotation" then
    match fs.rpoints.lookup id with
    | some content => .ok (some content) fs
    | none =>
      if !args.offline then
        match env.remoteRpoints.lookup id with
        | some content =>
          .ok (some content) { fs with rpoints := fsInsert id content fs.rpoints }
        | none => .skip
      else .skip
  else if args.heartbeats_source = "cached" then
    match fs.cachedHeartbeats.lookup id with
    | none => .skip
    | some _ => .ok hbVar fs
  else
    let wasAvailable := (fs.edfs.lookup id).isSome
    let dl : Except String ShhsFS :=
      if !args.offline then
        match env.remoteEdfs.lookup id with
        | none => .error "KeyError: checksums"
        | some sig => .ok { fs with edfs := fsInsert id sig fs.edfs }
      else .ok fs
    match dl with
    | .error e => .fatal e
    | .ok fs1 =>
      match fs1.edfs.lookup id with
      | none => .fatal "FileNotFoundError: edf"
      | some sig =>
        let times := detectTimes env.detect sig
        let fs2 :=
          { fs1 with cachedHeartbeats := fsInsert id times fs1.cachedHeartbeats }
        let fs3 :=
          if !wasAvailable && !args.keep_edfs then
            { fs2 with edfs := fsErase id fs2.edfs }
          else fs2
        .ok (some times) fs3

/-- Annotation XML acquisition of `read_shhs` (lines 805-812), as in mesa. -/
def shhsXml (env : ShhsEnv) (args : ShhsArgs) (fs : ShhsFS) (id : String) :
    Except String (NsrrXml × ShhsFS) :=
  if !args.offline then
    match env.remoteXmls.lookup id with
    | none => .error "KeyError: checksums"
    | some x => .ok (x, { fs with xmls := fsInsert id x fs.xmls })
  else
    match fs.xmls.lookup id with
    | none => .error "FileNotFoundError: xml"
    | some x => .ok (x, fs)

/-- Outcome of one iteration of the shhs loop, carrying the persistent
`heartbeat_times` variable. -/
inductive ShhsStepOut where
  | skip (hbVar : Option (List ℚ)) (fs : ShhsFS)
  | emit (r : SleepRecord) (hbVar : Option (List ℚ)) (fs : ShhsFS)
  | fatal (e : String)
deriving DecidableEq

/-- One iteration of the `read_shhs` record loop (lines 759-823).  At the
yield, evaluating `heartbeat_times` with the variable never assigned raises
`UnboundLocalError`; the subject lookup `subject_data[record_id[6:]]` can
raise `KeyError`. -/
def shhsStep (env : ShhsEnv) (args : ShhsArgs)
    (subjects : List (String × SubjectData)) (fs : ShhsFS)
    (hbVar : Option (List ℚ)) (id : String) : ShhsStepOut :=
  match shhsHeartbeats env args fs hbVar id with
  | .skip => .skip hbVar fs
  | .fatal e => .fatal e
  | .ok hbVar' fs1 =>
    match shhsXml env args fs1 id with
    | .error e => .fatal e
    | .ok (x, fs2) =>
      match parse_nsrr_xml x with
      | .error e => .fatal e
      | .ok parsed =>
        match hbVar' with
        | none => .fatal "UnboundLocalError: heartbeat_times"
        | some hb =>
          match subjects.lookup (id.drop 6) with
          | none => .fatal "KeyError: subject_data"
          | some sd =>
            .emit
              { sleep_stages := parsed.sleep_stages
                sleep_stage_duration := parsed.sleep_stage_duration
                id := id.drop 6
                recording_start_time := parsed.recording_start_time
                heartbeat_times := some hb
                subject_data := some sd
                activity_counts := none } hbVar' fs2

/-- The requested-records loop of `read_shhs`. -/
def shhsLoop (env : ShhsEnv) (args : ShhsArgs)
    (subjects : List (String × SubjectData)) :
    ShhsFS → Option (List ℚ) → List String → RunResult ShhsFS
  | fs, _, [] => ⟨[], fs, none⟩
  | fs, hbVar, id :: rest =>
    match shhsStep env args subjects fs hbVar id with
    | .skip hbVar' fs' => shhsLoop env args subjects fs' hbVar' rest
    | .emit r hbVar' fs' =>
      let res := shhsLoop env args subjects fs' hbVar' rest
      ⟨r :: res.yielded, res.fs, res.error⟩
    | .fatal e => ⟨[], fs, some e⟩

/-- Resulting file system of a non-fatal shhs iteration outcome. -/
def ShhsStepOut.finalFs : ShhsStepOut → Option ShhsFS
  | .skip _ fs => some fs
  | .emit _ _ fs => some fs
  | .fatal _ => none

/-- The shhs1 subject-data dict construction (lines 736-746); a
conversion error in a row aborts before the record loop. -/
def buildShhs1 :
    List (String × String × CsvField × CsvField) →
    Except String (List (String × SubjectData))
  | [] => .ok []
  | (nsrrid, gender, age, weight) :: rest => do
    let sd ← shhsSubjectDataRow1 gender age weight
    let tail ← buildShhs1 rest
    pure (("shhs1-" ++ nsrrid, sd) :: tail)

/-- The shhs2 subject-data dict construction (lines 747-757). -/
def buildShhs2 :
    List (String × String × CsvField) →
    Except String (List (String × SubjectData))
  | [] => .ok []
  | (nsrrid, gender, age) :: rest => do
    let sd ← shhsSubjectDataRow2 gender age
    let tail ← buildShhs2 rest
    pure (("shhs2-" ++ nsrrid, sd) :: tail)

/-- The body of the `read_shhs` generator, run at the first advance:
argument validation, requested-record enumeration (sorted local ids when
offline, listing order when online), conditional subject csv loads, then
the record loop with an initially unassigned `heartbeat_times` variable. -/
def readShhsRun (env : ShhsEnv) (args : ShhsArgs) (fs : ShhsFS) : RunResult ShhsFS :=
  if args.heartbeats_source ∉ (["annotation", "cached", "ecg"] : List String) then
    ⟨[], fs, some (invalidHbMsg args.heartbeats_source)⟩
  else
    let requested :=
      if args.offline then sortStrings (fs.xmls.map (·.1))
      else env.remoteXmls.map (·.1)
    match (if requested.any (·.startsWith "shhs1") then buildShhs1 env.shhs1Rows
           else .ok []) with
    | .error e => ⟨[], fs, some e⟩
    | .ok sub1 =>
      match (if requested.any (·.startsWith "shhs2") then buildShhs2 env.shhs2Rows
             else .ok []) with
      | .error e => ⟨[], fs, some e⟩
      | .ok sub2 => shhsLoop env args (sub1 ++ sub2) fs none requested

/-- Calling `read_shhs(...)`: as with `read_mesa`, the call builds a
suspended generator and executes no body code. -/
def readShhsCall (args : ShhsArgs) : GenCall ShhsArgs :=
  .generator args

/-! ## Well-formedness of an annotation document -/

/-- Whether an event is the "Recording Start Time" event. -/
def isStartEvent (e : ScoredEvent) : Bool :=
  e.eventConcept == some "Recording Start Time"

/-- Whether an event's `ClockTime` text parses under
`strptime(text.split()[1], "%H.%M.%S")`. -/
def hasValidClock (e : ScoredEvent) : Bool :=
  match e.clockTime with
  | some (.secondTok _ _ _) => true
  | _ => false

/-- Per-event well-formedness: a start-time event carries a parseable
clock time, and a staging event carries a parseable duration and a label
present in `STAGE_MAPPING`. -/
def eventOk (e : ScoredEvent) : Bool :=
  (!(isStartEvent e) || hasValidClock e) &&
  (!(e.eventType == some "Stages|Stages") ||
    ((pyFloatOfText (findtextD e.duration)).isSome &&
     (STAGE_MAPPING (conceptD e)).isSome))

/-- Well-formedness of a whole annotation document: the epoch length is
present, integer and nonzero; the first scored event exists and its
duration parses as a float; every event is well-formed; and a recording
start time event is present. -/
def wellFormedNsrr (x : NsrrXml) : Bool :=
  (match x.epochLength with
   | some t =>
     match pyIntOfText t with
     | some n => !(n == 0)
     | none => false
   | none => false) &&
  (match x.events.head? with
   | some e => (pyFloatOfText (findtextD e.duration)).isSome
   | none => false) &&
  x.events.all eventOk &&
  x.events.any isStartEvent

/-! ## Concrete example inputs -/

/-- A valid annotation document: `EpochLength` 30; the first scored event
is a single staging event "Stage 2 sleep|2" of duration 60 (so the
recording duration is also 60); a "Recording Start Time" event at
22.00.00. -/
def scenario1Xml : NsrrXml :=
  { epochLength := some (.intVal 30)
    events :=
      [ { eventType := some "Stages|Stages"
          eventConcept := some "Stage 2 sleep|2"
          duration := some (.floatVal 60)
          clockTime := none }
      , { eventType := none
          eventConcept := some "Recording Start Time"
          duration := some (.floatVal 0)
          clockTime := some (.secondTok 22 0 0) } ] }

/-- A structurally invalid annotation document: no `EpochLength`. -/
def noEpochXml : NsrrXml := {}

/-- A heartbeat detector stub returning no beats. -/
def detectNone : List ℚ → ℚ → List ℕ := fun _ _ => []

/-- A heartbeat detector stub returning sample indices 100 and 200. -/
def detectTwo : List ℚ → ℚ → List ℕ := fun _ _ => [100, 200]

/-- A mesa environment with two subject rows. -/
def mesaEnvA : MesaEnv :=
  { detect := detectNone
    subjectRows := [(1, 0, 50), (2, 1, 60)] }

/-- Offline annotation-mode arguments for `read_mesa`. -/
def mesaArgsOfflineAnn : MesaArgs :=
  { heartbeats_source := "annotation", offline := true }

/-- A mesa data directory whose first record has a malformed annotation
file and whose second record is fully valid. -/
def mesaFsAbort : MesaFS :=
  { rpoints := [("mesa-sleep-0001", [1, 2]), ("mesa-sleep-0002", [3, 4])]
    xmls := [("mesa-sleep-0001", noEpochXml), ("mesa-sleep-0002", scenario1Xml)] }

/-- The same mesa data directory with only the valid second record. -/
def mesaFsGood : MesaFS :=
  { rpoints := [("mesa-sleep-0002", [3, 4])]
    xmls := [("mesa-sleep-0002", scenario1Xml)] }

/-- An empty mesa data directory. -/
def mesaFsEmpty : MesaFS := {}

/-- Arguments with an invalid `heartbeats_source`. -/
def mesaArgsBad : MesaArgs := { heartbeats_source := "invalid" }

/-- Arguments with an invalid `activity_source`. -/
def mesaArgsBadAct : MesaArgs := { activity_source := some "invalid" }

/-- Arguments with an invalid `heartbeats_source` for `read_shhs`. -/
def shhsArgsBad : ShhsArgs := { heartbeats_source := "invalid" }

/-- A shhs environment with one shhs1 subject row. -/
def shhsEnvA : ShhsEnv :=
  { detect := detectNone
    shhs1Rows := [("0001", "1", .intStr 50, .blank)] }

/-- Offline annotation-mode arguments for `read_shhs`. -/
def shhsArgsOfflineAnn : ShhsArgs :=
  { heartbeats_source := "annotation", offline := true }

/-- Offline cached-mode arguments for `read_shhs`. -/
def shhsArgsOfflineCached : ShhsArgs :=
  { heartbeats_source := "cached", offline := true }

/-- A shhs data directory whose rpoints sidecar lists heartbeat times out
of order. -/
def shhsFsUnsorted : ShhsFS :=
  { rpoints := [("shhs1/shhs1-0001", [5, 2, 3])]
    xmls := [("shhs1/shhs1-0001", scenario1Xml)] }

/-- A shhs data directory holding a cached heartbeat array for its one
record. -/
def shhsFsCached : ShhsFS :=
  { cachedHeartbeats := [("shhs1/shhs1-0001", [1, 2])]
    xmls := [("shhs1/shhs1-0001", scenario1Xml)] }

/-- A mesa environment for the ecg-then-cached round trip. -/
def mesaEnvRT : MesaEnv :=
  { detect := detectTwo
    subjectRows := [(1, 0, 50)] }

/-- Offline ecg-mode arguments for `read_mesa`. -/
def mesaArgsOfflineEcg : MesaArgs :=
  { heartbeats_source := "ecg", offline := true }

/-- Offline cached-mode arguments for `read_mesa`. -/
def mesaArgsOfflineCached : MesaArgs :=
  { heartbeats_source := "cached", offline := true }

/-- A mesa data directory with a locally present `.edf` (sampling
frequency 2 Hz) and a valid annotation file. -/
def mesaFsRT : MesaFS :=
  { edfs := [("mesa-sleep-0001", { data := [0, 1, 0, 1], sampling_frequency := 2 })]
    xmls := [("mesa-sleep-0001", scenario1Xml)] }

/-- An example `.edf` channel signal. -/
def sigRT : EcgSignal := { data := [0, 1, 0, 1], sampling_frequency := 2 }

/-- A mesa environment whose remote side holds the `.edf` and annotation
of one record. -/
def mesaEnvDL : MesaEnv :=
  { detect := detectTwo
    subjectRows := [(1, 0, 50)]
    remoteEdfs := [("mesa-sleep-0001", sigRT)]
    remoteXmls := [("mesa-sleep-0001", scenario1Xml)] }

/-- Online ecg-mode arguments with `keep_edfs=True`. -/
def mesaArgsEcgKeep : MesaArgs :=
  { heartbeats_source := "ecg", offline := false, keep_edfs := true }

/-- The file system produced by the ecg heartbeat phase of `mesaEnvDL`
starting from an empty data directory with `keep_edfs=True`. -/
def mesaFsDLout : MesaFS :=
  { edfs := fsInsert "mesa-sleep-0001" sigRT []
    cachedHeartbeats := fsInsert "mesa-sleep-0001" [50, 100] [] }

/-! ## Theorems -/

/-! ### Helper lemmas on the annotation parser -/

/-- A successful staging step produces exactly the declarative per-event
contribution. -/
theorem stagingStep_ok_eq {n : Int} {e : ScoredEvent} {block : List SleepStage}
    (h : stagingStep n e = .ok block) : block = eventStages n e := by
  unfold stagingStep at h
  unfold eventStages
  split at h
  · next hty =>
    rw [if_pos hty]
    cases hq : pyFloatOfText (findtextD e.duration) with
    | none => simp [hq] at h
    | some q =>
      simp only [hq] at h
      cases hs : STAGE_MAPPING (conceptD e) with
      | none => simp [hs] at h
      | some stage =>
        simp only [hs] at h
        split at h
        · simp at h
        · injection h with h'
          rw [← h']
  · next hty =>
    rw [if_neg hty]
    injection h with h'
    rw [← h']

/-- A successful scan accumulates exactly the concatenated per-event
contributions, in event order. -/
theorem scanEvents_ok_stages {n : Int} (evs : List ScoredEvent) :
    ∀ (start : Option (ℕ × ℕ × ℕ)) (acc : List SleepStage)
      (out : Option (ℕ × ℕ × ℕ) × List SleepStage),
      scanEvents n evs start acc = .ok out →
      out.2 = acc ++ (evs.map (eventStages n)).flatten := by
  induction evs with
  | nil =>
    intro start acc out h
    unfold scanEvents at h
    injection h with h'
    rw [← h']
    simp
  | cons e rest ih =>
    intro start acc out h
    unfold scanEvents at h
    cases hss : startStep e start with
    | error err => rw [hss] at h; simp at h
    | ok start' =>
      rw [hss] at h
      cases hst : stagingStep n e with
      | error err => rw [hst] at h; simp at h
      | ok block =>
        rw [hst] at h
        have := ih start' (acc ++ block) out h
        rw [this, stagingStep_ok_eq hst]
        simp [List.append_assoc]

/-- A scan over events containing a staging event with an unmapped label
never succeeds. -/
theorem scanEvents_unknown_label {n : Int} (evs : List ScoredEvent) :
    ∀ e ∈ evs, e.eventType = some "Stages|Stages" →
      STAGE_MAPPING (conceptD e) = none →
      ∀ start acc out, scanEvents n evs start acc ≠ .ok out := by
  induction evs with
  | nil => intro e he; simp at he
  | cons e' rest ih =>
    intro e he hty hmap start acc out h
    unfold scanEvents at h
    cases hss : startStep e' start with
    | error err => rw [hss] at h; simp at h
    | ok start' =>
      rw [hss] at h
      cases hst : stagingStep n e' with
      | error err => rw [hst] at h; simp at h
      | ok block =>
        rw [hst] at h
        rcases List.mem_cons.mp he with rfl | hmem
        · unfold stagingStep at hst
          rw [if_pos hty] at hst
          cases hq : pyFloatOfText (findtextD e.duration) with
          | none => rw [hq] at hst; simp at hst
          | some q => rw [hq, hmap] at hst; simp at hst
        · exact ih e hmem hty hmap start' (acc ++ block) out h

/-- A scan over events with no start-time event leaves the tracked start
time unchanged. -/
theorem scanEvents_no_start {n : Int} (evs : List ScoredEvent) :
    (∀ e ∈ evs, isStartEvent e = false) →
    ∀ start acc out, scanEvents n evs start acc = .ok out → out.1 = start := by
  induction evs with
  | nil =>
    intro _ start acc out h
    unfold scanEvents at h
    injection h with h'
    rw [← h']
  | cons e rest ih =>
    intro hns start acc out h
    have hne : isStartEvent e = false := hns e (List.mem_cons_self e rest)
    unfold scanEvents at h
    cases hss : startStep e start with
    | error err => rw [hss] at h; simp at h
    | ok start' =>
      rw [hss] at h
      have hstart : start' = start := by
        unfold startStep at hss
        rw [if_neg] at hss
        · injection hss with h'
          exact h'.symm
        · unfold isStartEvent at hne
          simpa using hne
      cases hst : stagingStep n e with
      | error err => rw [hst] at h; simp at h
      | ok block =>
        rw [hst] at h
        rw [ih (fun e' he' => hns e' (List.mem_cons_of_mem e he')) start' _ out h,
          hstart]

/-- An event that is not a start-time event leaves the start step trivial. -/
theorem startStep_of_not_start {e : ScoredEvent} {start : Option (ℕ × ℕ × ℕ)}
    (h : isStartEvent e = false) : startStep e start = .ok start := by
  unfold startStep
  rw [if_neg]
  unfold isStartEvent at h
  simpa using h

/-- A start-time event with a valid clock succeeds and installs some start
time. -/
theorem startStep_of_start {e : ScoredEvent} {start : Option (ℕ × ℕ × ℕ)}
    (h1 : isStartEvent e = true) (h2 : hasValidClock e = true) :
    ∃ t, startStep e start = .ok (some t) := by
  unfold startStep
  rw [if_pos]
  · unfold hasValidClock at h2
    split at h2
    · next hh mm ss heq => exact ⟨(hh, mm, ss), rfl⟩
    · simp at h2
  · unfold isStartEvent at h1
    simpa using h1

/-- A staging step on a well-formed event (nonzero epoch length) succeeds. -/
theorem stagingStep_success {n : Int} (hn : n ≠ 0) {e : ScoredEvent}
    (h : (!(e.eventType == some "Stages|Stages") ||
      ((pyFloatOfText (findtextD e.duration)).isSome &&
       (STAGE_MAPPING (conceptD e)).isSome)) = true) :
    ∃ block, stagingStep n e = .ok block := by
  unfold stagingStep
  by_cases hty : e.eventType = some "Stages|Stages"
  · rw [if_pos hty]
    rw [Bool.or_eq_true] at h
    rcases h with h | h
    · simp [hty] at h
    · rw [Bool.and_eq_true] at h
      obtain ⟨h1, h2⟩ := h
      obtain ⟨q, hq⟩ := Option.isSome_iff_exists.mp h1
      obtain ⟨st, hst⟩ := Option.isSome_iff_exists.mp h2
      refine ⟨List.replicate (stageCopies n (pyTrunc q)) st, ?_⟩
      rw [hq, hst]
      simp [hn]
  · rw [if_neg hty]
    exact ⟨[], rfl⟩

/-- A scan over well-formed events (nonzero epoch length) succeeds, and
delivers some start time when the events contain a start-time event. -/
theorem scanEvents_success {n : Int} (hn : n ≠ 0) (evs : List ScoredEvent) :
    (∀ e ∈ evs, eventOk e = true) →
    ∀ start acc, ∃ start' stages,
      scanEvents n evs start acc = .ok (start', stages) ∧
      (start.isSome = true → start'.isSome = true) ∧
      (evs.any isStartEvent = true → start'.isSome = true) := by
  induction evs with
  | nil =>
    intro _ start acc
    exact ⟨start, acc, rfl, fun h => h, by simp⟩
  | cons e rest ih =>
    intro hok start acc
    have hoke := hok e (List.mem_cons_self e rest)
    have hokr : ∀ e' ∈ rest, eventOk e' = true := fun e' he' =>
      hok e' (List.mem_cons_of_mem e he')
    unfold eventOk at hoke
    rw [Bool.and_eq_true] at hoke
    obtain ⟨hoke1, hoke2⟩ := hoke
    obtain ⟨block, hblock⟩ := stagingStep_success hn hoke2
    by_cases hstart : isStartEvent e = true
    · have hclock : hasValidClock e = true := by
        rw [Bool.or_eq_true] at hoke1
        rcases hoke1 with h | h
        · rw [hstart] at h; simp at h
        · exact h
      obtain ⟨t, hts⟩ := startStep_of_start hstart hclock
      obtain ⟨start', stages, hscan, hpres, _⟩ := ih hokr (some t) (acc ++ block)
      refine ⟨start', stages, ?_, ?_, ?_⟩
      · unfold scanEvents
        rw [hts, hblock]
        exact hscan
      · intro _; exact hpres (by simp)
      · intro _; exact hpres (by simp)
    · simp only [Bool.not_eq_true] at hstart
      have hss : startStep e start = .ok start := startStep_of_not_start hstart
      obtain ⟨start', stages, hscan, hpres, hany⟩ := ih hokr start (acc ++ block)
      refine ⟨start', stages, ?_, hpres, ?_⟩
      · unfold scanEvents
        rw [hss, hblock]
        exact hscan
      · intro hanyC
        rw [List.any_cons, Bool.or_eq_true] at hanyC
        rcases hanyC with h | h
        · rw [hstart] at h; simp at h
        · exact hany h

/-- The per-event copy count equals natural floor division of the event
duration by the epoch length. -/
theorem stageCopies_floor (d n : ℕ) :
    stageCopies (n : Int) (d : Int) = d / n := by
  unfold stageCopies pyTrunc
  rw [if_neg]
  · have h1 : (((d : Int) : ℚ) / ((n : Int) : ℚ)) = (((d : Int) : ℚ) / ((n : ℕ) : ℚ)) := by
      push_cast
      ring
    rw [h1, Rat.floor_intCast_div_natCast, ← Int.natCast_div]
    exact Int.toNat_natCast _
  · rw [not_lt]
    exact Rat.num_nonneg.mpr (by positivity)

/-- Claim C7: each staging event of a valid annotation file contributes
exactly `floor(event_duration / epoch_length)` consecutive copies of its
mapped stage, in event declaration order (the parsed stage sequence is the
concatenation of the per-event contributions); an unknown stage label makes
the parse fail; and the concrete scenario (EpochLength 30, one
"Stage 2 sleep|2" event of duration 60) yields exactly `[N2, N2]`. -/
theorem C7_staging_expansion :
    (∀ (x : NsrrXml) (res : ParseNsrrXmlResult), parse_nsrr_xml x = .ok res →
      res.sleep_stages =
        (x.events.map (eventStages res.sleep_stage_duration)).flatten) ∧
    (∀ d n : ℕ, stageCopies (n : Int) (d : Int) = d / n) ∧
    (∀ (x : NsrrXml) (e : ScoredEvent), e ∈ x.events →
      e.eventType = some "Stages|Stages" → STAGE_MAPPING (conceptD e) = none →
      ∀ res, parse_nsrr_xml x ≠ .ok res) ∧
    (parse_nsrr_xml scenario1Xml =
      .ok ⟨[SleepStage.N2, SleepStage.N2], 30, (22, 0, 0), 60⟩) := by
  refine ⟨?_, stageCopies_floor, ?_, by with_unfolding_all rfl⟩
  · intro x res h
    unfold parse_nsrr_xml at h
    cases he : x.epochLength with
    | none => rw [he] at h; simp at h
    | some t =>
      rw [he] at h
      cases hi : pyIntOfText t with
      | none => simp [hi] at h
      | some n =>
        simp only [hi] at h
        cases hh : x.events.head? with
        | none => simp [hh] at h
        | some e0 =>
          simp only [hh] at h
          cases hf : pyFloatOfText (findtextD e0.duration) with
          | none => simp [hf] at h
          | some q =>
            simp only [hf] at h
            cases hs : scanEvents n x.events none [] with
            | error err => simp [hs] at h
            | ok out =>
              simp only [hs] at h
              obtain ⟨st, stages⟩ := out
              cases st with
              | none => simp at h
              | some t0 =>
                injection h with h'
                have := scanEvents_ok_stages x.events none [] (some t0, stages) hs
                rw [← h']
                simpa using this
  · intro x e he hty hmap res h
    unfold parse_nsrr_xml at h
    cases hep : x.epochLength with
    | none => rw [hep] at h; simp at h
    | some t =>
      rw [hep] at h
      cases hi : pyIntOfText t with
      | none => simp [hi] at h
      | some n =>
        simp only [hi] at h
        cases hh : x.events.head? with
        | none => simp [hh] at h
        | some e0 =>
          simp only [hh] at h
          cases hf : pyFloatOfText (findtextD e0.duration) with
          | none => simp [hf] at h
          | some q =>
            simp only [hf] at h
            cases hs : scanEvents n x.events none [] with
            | error err => simp [hs] at h
            | ok out =>
              exact scanEvents_unknown_label x.events e he hty hmap none [] out hs

/-- Witness for C7 at the scenario annotation document: the parsed stage
sequence is the concatenation of per-event contributions. -/
theorem C7_staging_expansion_witness :
    ([SleepStage.N2, SleepStage.N2] : List SleepStage) =
      (scenario1Xml.events.map (eventStages 30)).flatten :=
  C7_staging_expansion.1 scenario1Xml
    ⟨[SleepStage.N2, SleepStage.N2], 30, (22, 0, 0), 60⟩ (by with_unfolding_all rfl)

/-- Claim C9: the annotation parser fails when the epoch-length field is
absent, when the recording-duration information is absent (no scored event
at all, or no duration on the first scored event), or when no "Recording
Start Time" event is present; and it succeeds on every well-formed
document. -/
theorem C9_parser_required_fields :
    (∀ x : NsrrXml, x.epochLength = none →
      parse_nsrr_xml x = .error "RuntimeError: EpochLength not found") ∧
    (∀ x : NsrrXml, x.events = [] →
      exceptIsOk (parse_nsrr_xml x) = false) ∧
    (∀ (x : NsrrXml) (e : ScoredEvent) (rest : List ScoredEvent),
      x.events = e :: rest → e.duration = none →
      exceptIsOk (parse_nsrr_xml x) = false) ∧
    (∀ x : NsrrXml, (∀ e ∈ x.events, isStartEvent e = false) →
      exceptIsOk (parse_nsrr_xml x) = false) ∧
    (∀ x : NsrrXml, wellFormedNsrr x = true →
      exceptIsOk (parse_nsrr_xml x) = true) := by
  refine ⟨?_, ?_, ?_, ?_, ?_⟩
  · intro x h
    unfold parse_nsrr_xml
    rw [h]
  · intro x h
    unfold parse_nsrr_xml
    rw [h]
    cases x.epochLength with
    | none => rfl
    | some t =>
      dsimp only
      cases pyIntOfText t with
      | none => rfl
      | some n => rfl
  · intro x e rest hev hdur
    unfold parse_nsrr_xml
    rw [hev]
    cases x.epochLength with
    | none => rfl
    | some t =>
      dsimp only
      cases pyIntOfText t with
      | none => rfl
      | some n =>
        simp only [List.head?_cons]
        rw [hdur]
        rfl
  · intro x hns
    unfold parse_nsrr_xml
    cases x.epochLength with
    | none => rfl
    | some t =>
      dsimp only
      cases pyIntOfText t with
      | none => rfl
      | some n =>
        dsimp only
        cases hh : x.events.head? with
        | none => rfl
        | some e0 =>
          dsimp only
          cases pyFloatOfText (findtextD e0.duration) with
          | none => rfl
          | some q =>
            dsimp only
            cases hs : scanEvents n x.events none [] with
            | error err => rfl
            | ok out =>
              have h1 := scanEvents_no_start x.events hns none [] out hs
              obtain ⟨st, stages⟩ := out
              simp only at h1
              rw [h1]
              rfl
  · intro x hwf
    unfold wellFormedNsrr at hwf
    simp only [Bool.and_eq_true] at hwf
    obtain ⟨⟨⟨hep, hdur⟩, hall⟩, hany⟩ := hwf
    unfold parse_nsrr_xml
    cases he : x.epochLength with
    | none => rw [he] at hep; simp at hep
    | some t =>
      rw [he] at hep
      dsimp only at hep ⊢
      cases hi : pyIntOfText t with
      | none => rw [hi] at hep; simp at hep
      | some n =>
        rw [hi] at hep
        dsimp only at hep ⊢
        have hn : n ≠ 0 := by simpa using hep
        cases hh : x.events.head? with
        | none => rw [hh] at hdur; simp at hdur
        | some e0 =>
          rw [hh] at hdur
          dsimp only at hdur ⊢
          obtain ⟨q, hq⟩ := Option.isSome_iff_exists.mp hdur
          rw [hq]
          dsimp only
          have hallP : ∀ e ∈ x.events, eventOk e = true := by
            intro e hmem
            exact List.all_eq_true.mp hall e hmem
          obtain ⟨start', stages, hscan, _, hsome⟩ :=
            scanEvents_success hn x.events hallP none []
          rw [hscan]
          obtain ⟨t0, ht0⟩ := Option.isSome_iff_exists.mp (hsome hany)
          rw [ht0]
          rfl

/-- Witness for C9: the well-formed scenario document parses
successfully. -/
theorem C9_parser_required_fields_witness :
    exceptIsOk (parse_nsrr_xml scenario1Xml) = true :=
  C9_parser_required_fields.2.2.2.2 scenario1Xml (by decide)

/-- Claim C8: in activity alignment, the recording end time's seconds
component is rounded to the nearest 30-second boundary: the adjustment
rounds up to the next boundary exactly when the seconds component modulo
30 is at least 15, rounds down to the enclosing boundary otherwise, and
the adjusted seconds value is always a multiple of 30. -/
theorem C8_end_time_rounding :
    ∀ s : Fin 60,
      (15 ≤ (s : ℕ) % 30 →
        ((s : ℕ) : Int) + roundingSeconds (s : ℕ) =
          30 * (((s : ℕ) / 30 : ℕ) : Int) + 30) ∧
      ((s : ℕ) % 30 < 15 →
        ((s : ℕ) : Int) + roundingSeconds (s : ℕ) =
          30 * (((s : ℕ) / 30 : ℕ) : Int)) ∧
      (30 : Int) ∣ (((s : ℕ) : Int) + roundingSeconds (s : ℕ)) := by
  decide

/-- Witness for C8 at seconds value 44 (44 % 30 = 14 < 15, so the
adjustment rounds down to the boundary 30). -/
theorem C8_end_time_rounding_witness :
    ((44 : ℕ) : Int) + roundingSeconds 44 = 30 * (((44 : ℕ) / 30 : ℕ) : Int) :=
  (C8_end_time_rounding ⟨44, by decide⟩).2.1 (by decide)

/-- Counterexample to claim C5 as stated: an empty candidate slice against
two sleep stages has |d| = 2 <= 2, yet the emitted activity counts have
length 0, not the stage-sequence length 2 (the pad slice
`activity_counts[diff:]` clamps to the whole, too-short array). -/
theorem C5_cex_short_candidate :
    (((([] : List CsvField).length : Int) -
        (([SleepStage.N2, SleepStage.N2]).length : Int)).natAbs ≤ 2) ∧
    alignActivityCounts [] [SleepStage.N2, SleepStage.N2] = some [] ∧
    ([] : List CsvField).length ≠ ([SleepStage.N2, SleepStage.N2]).length := by
  decide

/-- Claim C5 (amended): when the candidate slice and the stage sequence
differ in length by `d` with |d| <= 2 and the candidate has at least |d|
elements, the emitted activity counts have exactly the stage-sequence
length (truncated from the end when longer, padded by repeating tail
values when shorter); when |d| > 2 the alignment yields no output and the
record is skipped.  (A candidate shorter than |d| — only possible for
candidates of fewer than 2 elements — stays short, because the Python pad
slice clamps.) -/
theorem C5_align_length (activity : List CsvField) (stages : List SleepStage) :
    (((activity.length : Int) - (stages.length : Int)).natAbs ≤ 2 →
      ((activity.length : Int) - (stages.length : Int)).natAbs ≤ activity.length →
      ∃ out, alignActivityCounts activity stages = some out ∧
        out.length = stages.length) ∧
    (2 < ((activity.length : Int) - (stages.length : Int)).natAbs →
      alignActivityCounts activity stages = none) := by
  constructor
  · intro h1 h2
    simp only [alignActivityCounts]
    split_ifs with hgt hpos hneg
    · exact absurd hgt (by omega)
    · exact ⟨_, rfl, by simp only [List.length_take]; omega⟩
    · exact ⟨_, rfl, by simp only [List.length_append, List.length_drop]; omega⟩
    · exact ⟨_, rfl, by omega⟩
  · intro h
    simp only [alignActivityCounts]
    rw [if_pos h]

/-- Witness for C5 at a candidate of four cells against two stages
(d = 2: truncate two from the end). -/
theorem C5_align_length_witness :
    ∃ out,
      alignActivityCounts [CsvField.intStr 1, CsvField.intStr 2, CsvField.intStr 3,
        CsvField.intStr 4] [SleepStage.N2, SleepStage.N2] = some out ∧
      out.length = [SleepStage.N2, SleepStage.N2].length :=
  (C5_align_length _ _).1 (by decide) (by decide)

/-- Counterexample to claim C6 as stated: in `read_mesa` an unmapped
gender code (here 2) raises `KeyError` through the plain
`GENDER_MAPPING[gender]` dict access instead of resolving to `None`. -/
theorem C6_cex_mesa_gender_raises :
    mesaSubjectDataRow 2 50 = Except.error "KeyError: gender" := by rfl

/-- Claim C6 (amended): `read_shhs` resolves an unmapped gender code to
`None` (via `.get`) and blank age/weight cells to `None`; `read_slpdb`
resolves the unknown-marker `"x"` for age/weight to `None`; none of these
ever become 0.  However `read_mesa` raises on an unmapped gender code, and
`read_shhs` raises on a (hypothetical) `"x"` age cell. -/
theorem C6_metadata_absent_fields :
    (∀ g a w sd, shhsSubjectDataRow1 g a w = .ok sd → shhsGenderLookup g = none →
      sd.gender = none) ∧
    (∀ g w sd, shhsSubjectDataRow1 g CsvField.blank w = .ok sd → sd.age = none) ∧
    (∀ g a sd, shhsSubjectDataRow1 g a CsvField.blank = .ok sd → sd.weight = none) ∧
    (∀ g sd, shhsSubjectDataRow2 g CsvField.blank = .ok sd → sd.age = none) ∧
    (slpdbSubjectData (CsvField.other "x") (CsvField.other "x") =
      .ok { gender := some Gender.MALE, age := none, weight := none }) ∧
    (∀ g w, shhsSubjectDataRow1 g (CsvField.other "x") w =
      .error "ValueError: int") ∧
    (∀ g a, mesaGenderLookup g = none →
      mesaSubjectDataRow g a = .error "KeyError: gender") := by
  refine ⟨?_, ?_, ?_, ?_, by rfl, ?_, ?_⟩
  · intro g a w sd h hg
    unfold shhsSubjectDataRow1 at h
    split at h
    · simp at h
    · split at h
      · simp at h
      · injection h with h'
        rw [← h']
        simpa using hg
  · intro g w sd h
    unfold shhsSubjectDataRow1 at h
    split at h
    · simp at h
    · next age hage =>
      split at h
      · simp at h
      · injection h with h'
        rw [← h']
        unfold shhsAgeField at hage
        rw [if_pos rfl] at hage
        injection hage with h''
        simp [← h'']
  · intro g a sd h
    unfold shhsSubjectDataRow1 at h
    split at h
    · simp at h
    · split at h
      · simp at h
      · next w hw =>
        injection h with h'
        rw [← h']
        unfold shhsWeightField truthyCsv at hw
        simp at hw
        simp [← hw]
  · intro g sd h
    unfold shhsSubjectDataRow2 at h
    split at h
    · simp at h
    · next age hage =>
      injection h with h'
      rw [← h']
      unfold shhsAgeField at hage
      rw [if_pos rfl] at hage
      injection hage with h''
      simp [← h'']
  · intro g w
    rfl
  · intro g a hg
    unfold mesaSubjectDataRow
    rw [hg]

/-- Witness for C6: a shhs1 row with unmapped gender code "9" yields a
subject-data record whose gender is `None`. -/
theorem C6_metadata_absent_fields_witness :
    ({ gender := none, age := some 50, weight := none } : SubjectData).gender = none :=
  C6_metadata_absent_fields.1 "9" (CsvField.intStr 50) CsvField.blank
    { gender := none, age := some 50, weight := none } (by decide) (by decide)

/-! ### Helper lemmas on the file-system model -/

/-- Looking up a freshly inserted file finds it. -/
theorem lookup_fsInsert_self (k : String) (v : α) (l : List (String × α)) :
    (fsInsert k v l).lookup k = some v := by
  simp [fsInsert, List.lookup]

/-- Looking up an erased file finds nothing. -/
theorem lookup_fsErase_self (k : String) (l : List (String × α)) :
    (fsErase k l).lookup k = none := by
  induction l with
  | nil => rfl
  | cons p rest ih =>
    obtain ⟨a, b⟩ := p
    by_cases h : a = k
    · simpa [fsErase, List.filter_cons, h] using ih
    · unfold fsErase at ih ⊢
      rw [List.filter_cons, if_pos (by simpa using h)]
      have hk : (k == a) = false := by simp [Ne.symm h]
      unfold List.lookup
      rw [hk]
      exact ih

/-- The xml acquisition of `read_mesa` never touches the `.edf` files. -/
theorem mesaXml_edfs {env : MesaEnv} {args : MesaArgs} {fs : MesaFS}
    {id : String} {x : NsrrXml} {fs' : MesaFS}
    (h : mesaXml env args fs id = .ok (x, fs')) : fs'.edfs = fs.edfs := by
  unfold mesaXml at h
  split at h
  · split at h
    · exact Except.noConfusion h
    · injection h with h'
      injection h' with h1 h2
      rw [← h2]
  · split at h
    · exact Except.noConfusion h
    · injection h with h'
      injection h' with h1 h2
      rw [← h2]

/-- The actigraphy-csv acquisition never touches the `.edf` files. -/
theorem mesaActivityFetch_edfs {env : MesaEnv} {args : MesaArgs} {fs : MesaFS}
    {id : String} {fs1 : MesaFS}
    (h : mesaActivityFetch env args fs id = .ok fs1) : fs1.edfs = fs.edfs := by
  unfold mesaActivityFetch at h
  split at h
  · split at h
    · exact Except.noConfusion h
    · injection h with h'
      rw [← h']
  · injection h with h'
    rw [← h']

/-- The activity phase of `read_mesa` never touches the `.edf` files
(skip outcome). -/
theorem mesaActivity_edfs_skip {env : MesaEnv} {args : MesaArgs}
    {overlap : List (ℕ × Int)} {fs : MesaFS} {id : String}
    {parsed : ParseNsrrXmlResult} {fs' : MesaFS}
    (h : mesaActivity env args overlap fs id parsed = .skip fs') :
    fs'.edfs = fs.edfs := by
  unfold mesaActivity at h
  repeat' split at h
  all_goals try (dsimp only at h; repeat' split at h)
  all_goals
    first
      | exact ActOut.noConfusion h
      | (injection h with h1
         subst h1
         first
           | rfl
           | exact mesaActivityFetch_edfs (by assumption))

/-- The activity phase of `read_mesa` never touches the `.edf` files
(success outcome). -/
theorem mesaActivity_edfs_ok {env : MesaEnv} {args : MesaArgs}
    {overlap : List (ℕ × Int)} {fs : MesaFS} {id : String}
    {parsed : ParseNsrrXmlResult} {c : Option (List ℚ)} {fs' : MesaFS}
    (h : mesaActivity env args overlap fs id parsed = .ok c fs') :
    fs'.edfs = fs.edfs := by
  unfold mesaActivity at h
  repeat' split at h
  all_goals try (dsimp only at h; repeat' split at h)
  all_goals
    first
      | exact ActOut.noConfusion h
      | (injection h with h1 h2
         subst h2
         first
           | rfl
           | exact mesaActivityFetch_edfs (by assumption)
           | (dsimp only
              exact mesaActivityFetch_edfs (by assumption)))

/-- The xml acquisition of `read_shhs` never touches the `.edf` files. -/
theorem shhsXml_edfs {env : ShhsEnv} {args : ShhsArgs} {fs : ShhsFS}
    {id : String} {x : NsrrXml} {fs' : ShhsFS}
    (h : shhsXml env args fs id = .ok (x, fs')) : fs'.edfs = fs.edfs := by
  unfold shhsXml at h
  split at h
  · split at h
    · exact Except.noConfusion h
    · injection h with h'
      injection h' with h1 h2
      rw [← h2]
  · split at h
    · exact Except.noConfusion h
    · injection h with h'
      injection h' with h1 h2
      rw [← h2]

/-- Behaviour of the ecg heartbeat phase of `read_mesa` on the `.edf`
file: presence before the step is preserved (a download only overwrites
the file), and an absent file is present afterwards exactly when
`keep_edfs` is set. -/
theorem mesaHeartbeats_ecg_edfs {env : MesaEnv} {args : MesaArgs} {fs : MesaFS}
    {id : String} {hb : List ℚ} {fs1 : MesaFS}
    (hsrc : args.heartbeats_source = "ecg")
    (h : mesaHeartbeats env args fs id = .ok hb fs1) :
    ((fs.edfs.lookup id).isSome = true → (fs1.edfs.lookup id).isSome = true) ∧
    (fs.edfs.lookup id = none → args.keep_edfs = false →
      fs1.edfs.lookup id = none) ∧
    (fs.edfs.lookup id = none → args.keep_edfs = true →
      (fs1.edfs.lookup id).isSome = true) := by
  unfold mesaHeartbeats at h
  rw [hsrc, if_neg (by decide), if_neg (by decide)] at h
  cases hoff : args.offline with
  | true =>
    simp only [hoff, Bool.not_true, Bool.false_eq_true, if_false] at h
    cases hlook : fs.edfs.lookup id with
    | none => simp [hlook] at h
    | some sig =>
      simp only [hlook, Option.isSome_some, Bool.not_true, Bool.false_and,
        Bool.false_eq_true, if_false] at h
      injection h with h1 h2
      subst h2
      exact ⟨fun _ => by simp [hlook], fun hnone _ => Option.noConfusion hnone,
        fun hnone _ => Option.noConfusion hnone⟩
  | false =>
    simp only [hoff, Bool.not_false, if_true] at h
    cases hrem : env.remoteEdfs.lookup id with
    | none => simp [hrem] at h
    | some sig =>
      simp only [hrem, lookup_fsInsert_self] at h
      cases hlook : fs.edfs.lookup id with
      | none =>
        simp only [hlook, Option.isSome_none, Bool.not_false, Bool.true_and] at h
        cases hkeep : args.keep_edfs with
        | false =>
          simp only [hkeep, Bool.not_false, if_true] at h
          injection h with h1 h2
          subst h2
          exact ⟨fun hsome => Bool.noConfusion hsome,
            fun _ _ => lookup_fsErase_self id _, fun _ hkt => Bool.noConfusion hkt⟩
        | true =>
          simp only [hkeep, Bool.not_true, Bool.false_eq_true, if_false] at h
          injection h with h1 h2
          subst h2
          exact ⟨fun _ => by simp [lookup_fsInsert_self],
            fun _ hkf => Bool.noConfusion hkf,
            fun _ _ => by simp [lookup_fsInsert_self]⟩
      | some sig0 =>
        simp only [hlook, Option.isSome_some, Bool.not_true, Bool.false_and,
          Bool.false_eq_true, if_false] at h
        injection h with h1 h2
        subst h2
        exact ⟨fun _ => by simp [lookup_fsInsert_self],
          fun hnone _ => Option.noConfusion hnone,
          fun hnone _ => Option.noConfusion hnone⟩

/-- Behaviour of the ecg heartbeat phase of `read_shhs` on the `.edf`
file, as for mesa. -/
theorem shhsHeartbeats_ecg_edfs {env : ShhsEnv} {args : ShhsArgs} {fs : ShhsFS}
    {hbVar : Option (List ℚ)} {id : String} {hbVar2 : Option (List ℚ)}
    {fs1 : ShhsFS}
    (hsrc : args.heartbeats_source = "ecg")
    (h : shhsHeartbeats env args fs hbVar id = .ok hbVar2 fs1) :
    ((fs.edfs.lookup id).isSome = true → (fs1.edfs.lookup id).isSome = true) ∧
    (fs.edfs.lookup id = none → args.keep_edfs = false →
      fs1.edfs.lookup id = none) ∧
    (fs.edfs.lookup id = none → args.keep_edfs = true →
      (fs1.edfs.lookup id).isSome = true) := by
  unfold shhsHeartbeats at h
  rw [hsrc, if_neg (by decide), if_neg (by decide)] at h
  cases hoff : args.offline with
  | true =>
    simp only [hoff, Bool.not_true, Bool.false_eq_true, if_false] at h
    cases hlook : fs.edfs.lookup id with
    | none => simp [hlook] at h
    | some sig =>
      simp only [hlook, Option.isSome_some, Bool.not_true, Bool.false_and,
        Bool.false_eq_true, if_false] at h
      injection h with h1 h2
      subst h2
      exact ⟨fun _ => by simp [hlook], fun hnone _ => Option.noConfusion hnone,
        fun hnone _ => Option.noConfusion hnone⟩
  | false =>
    simp only [hoff, Bool.not_false, if_true] at h
    cases hrem : env.remoteEdfs.lookup id with
    | none => simp [hrem] at h
    | some sig =>
      simp only [hrem, lookup_fsInsert_self] at h
      cases hlook : fs.edfs.lookup id with
      | none =>
        simp only [hlook, Option.isSome_none, Bool.not_false, Bool.true_and] at h
        cases hkeep : args.keep_edfs with
        | false =>
          simp only [hkeep, Bool.not_false, if_true] at h
          injection h with h1 h2
          subst h2
          exact ⟨fun hsome => Bool.noConfusion hsome,
            fun _ _ => lookup_fsErase_self id _, fun _ hkt => Bool.noConfusion hkt⟩
        | true =>
          simp only [hkeep, Bool.not_true, Bool.false_eq_true, if_false] at h
          injection h with h1 h2
          subst h2
          exact ⟨fun _ => by simp [lookup_fsInsert_self],
            fun _ hkf => Bool.noConfusion hkf,
            fun _ _ => by simp [lookup_fsInsert_self]⟩
      | some sig0 =>
        simp only [hlook, Option.isSome_some, Bool.not_true, Bool.false_and,
          Bool.false_eq_true, if_false] at h
        injection h with h1 h2
        subst h2
        exact ⟨fun _ => by simp [lookup_fsInsert_self],
          fun hnone _ => Option.noConfusion hnone,
          fun hnone _ => Option.noConfusion hnone⟩

/-- Counterexample to claim C2 as stated: `read_shhs` in annotation mode
yields the rpoints sidecar column unchanged, so an out-of-order sidecar
([5, 2, 3]) produces a yielded record with non-monotone heartbeat times. -/
theorem C2_cex_shhs_unsorted :
    (readShhsRun shhsEnvA shhsArgsOfflineAnn shhsFsUnsorted).yielded.map
        (·.heartbeat_times) = [some [5, 2, 3]] ∧
    ¬ List.Sorted (· ≤ ·) [(5 : ℚ), 2, 3] := by
  constructor
  · with_unfolding_all rfl
  · decide

/-- Claim C2 (amended): `read_mesa` sorts annotation-sourced heartbeat
times, so every successful mesa annotation-mode heartbeat resolution is
non-decreasing even when the sidecar is unordered; `read_shhs` passes the
sidecar column through unchanged (no sorting). -/
theorem C2_annotation_sorting :
    (∀ env args fs id hb fs1, args.heartbeats_source = "annotation" →
      mesaHeartbeats env args fs id = .ok hb fs1 → hb.Sorted (· ≤ ·)) ∧
    (∀ env args fs hbVar id content, args.heartbeats_source = "annotation" →
      fs.rpoints.lookup id = some content →
      shhsHeartbeats env args fs hbVar id = .ok (some content) fs) := by
  constructor
  · intro env args fs id hb fs1 hsrc hok
    unfold mesaHeartbeats at hok
    rw [hsrc, if_pos rfl] at hok
    split at hok
    · injection hok with h1 h2
      rw [← h1]
      exact List.sorted_insertionSort _ _
    · split at hok
      · split at hok
        · injection hok with h1 h2
          rw [← h1]
          exact List.sorted_insertionSort _ _
        · exact HbOut.noConfusion hok
      · exact HbOut.noConfusion hok
  · intro env args fs hbVar id content hsrc hlook
    unfold shhsHeartbeats
    rw [hsrc, if_pos rfl, hlook]

/-- Witness for C2: the mesa annotation resolution of record
mesa-sleep-0002 delivers a sorted sequence. -/
theorem C2_annotation_sorting_witness :
    List.Sorted (· ≤ ·) [(3 : ℚ), 4] :=
  C2_annotation_sorting.1 mesaEnvA mesaArgsOfflineAnn mesaFsGood "mesa-sleep-0002"
    [3, 4] mesaFsGood rfl (by decide)

/-- Counterexample to claim C3 as stated: calling `read_mesa` with an
invalid `heartbeats_source` raises nothing at call time (a generator
function executes no body code when called); the `ValueError` only
surfaces once the generator is advanced, i.e. during iteration. -/
theorem C3_cex_call_does_not_raise :
    (readMesaCall mesaArgsBad).isRaised = false ∧
    readMesaRun mesaEnvA mesaArgsBad mesaFsEmpty =
      ⟨[], mesaFsEmpty, some (invalidHbMsg "invalid")⟩ :=
  ⟨rfl, rfl⟩

/-- Claim C3 (amended): an invalid `heartbeats_source` (or
`activity_source`) makes the generator body raise the `ValueError` at its
first advance, before any record is yielded or any per-record work is
done; the call itself returns a suspended generator and never raises. -/
theorem C3_validation_at_first_advance :
    (∀ (env : MesaEnv) (fs : MesaFS) (args : MesaArgs),
      args.heartbeats_source ∉ (["annotation", "cached", "ecg"] : List String) →
      (readMesaCall args).isRaised = false ∧
      readMesaRun env args fs = ⟨[], fs, some (invalidHbMsg args.heartbeats_source)⟩) ∧
    (∀ (env : MesaEnv) (fs : MesaFS) (args : MesaArgs),
      args.activity_source ∉
        ([none, some "cached", some "actigraphy"] : List (Option String)) →
      (readMesaCall args).isRaised = false ∧
      (args.heartbeats_source ∈ (["annotation", "cached", "ecg"] : List String) →
        readMesaRun env args fs = ⟨[], fs, some invalidActMsg⟩)) ∧
    (∀ (env : ShhsEnv) (fs : ShhsFS) (args : ShhsArgs),
      args.heartbeats_source ∉ (["annotation", "cached", "ecg"] : List String) →
      (readShhsCall args).isRaised = false ∧
      readShhsRun env args fs = ⟨[], fs, some (invalidHbMsg args.heartbeats_source)⟩) := by
  refine ⟨?_, ?_, ?_⟩
  · intro env fs args h
    refine ⟨rfl, ?_⟩
    unfold readMesaRun
    rw [if_pos h]
  · intro env fs args h
    refine ⟨rfl, fun hmem => ?_⟩
    unfold readMesaRun
    rw [if_neg (not_not_intro hmem), if_pos h]
  · intro env fs args h
    refine ⟨rfl, ?_⟩
    unfold readShhsRun
    rw [if_pos h]

/-- Witness for C3 at `read_shhs` with `heartbeats_source="invalid"`. -/
theorem C3_validation_at_first_advance_witness :
    (readShhsCall shhsArgsBad).isRaised = false ∧
    readShhsRun shhsEnvA shhsArgsBad shhsFsCached =
      ⟨[], shhsFsCached, some (invalidHbMsg "invalid")⟩ :=
  C3_validation_at_first_advance.2.2 shhsEnvA shhsFsCached shhsArgsBad (by decide)

/-- Claim C10: in ecg mode, the record iteration deletes the raw `.edf`
only when it was not locally present before the record was processed and
`keep_edfs` is false; a locally pre-existing `.edf` is still present
after every non-fatal iteration outcome, regardless of `keep_edfs`; and
when the `.edf` was absent, it is present after heartbeat detection
exactly when `keep_edfs` is set. -/
theorem C10_edf_deletion_policy :
    (∀ env args subjects overlap fs id,
      args.heartbeats_source = "ecg" →
      ((fs.edfs.lookup id).isSome = true →
        ∀ fs', (mesaStep env args subjects overlap fs id).finalFs = some fs' →
          (fs'.edfs.lookup id).isSome = true) ∧
      (fs.edfs.lookup id = none →
        ∀ hb fs1, mesaHeartbeats env args fs id = .ok hb fs1 →
          (args.keep_edfs = false → fs1.edfs.lookup id = none) ∧
          (args.keep_edfs = true → (fs1.edfs.lookup id).isSome = true))) ∧
    (∀ env args subjects fs hbVar id,
      args.heartbeats_source = "ecg" →
      ((fs.edfs.lookup id).isSome = true →
        ∀ fs', (shhsStep env args subjects fs hbVar id).finalFs = some fs' →
          (fs'.edfs.lookup id).isSome = true) ∧
      (fs.edfs.lookup id = none →
        ∀ hbVar2 fs1, shhsHeartbeats env args fs hbVar id = .ok hbVar2 fs1 →
          (args.keep_edfs = false → fs1.edfs.lookup id = none) ∧
          (args.keep_edfs = true → (fs1.edfs.lookup id).isSome = true))) := by
  constructor
  · intro env args subjects overlap fs id hsrc
    constructor
    · intro hpresent fs' hstep
      unfold mesaStep at hstep
      cases mhb : mesaHeartbeats env args fs id with
      | skip =>
        simp only [mhb, StepOut.finalFs] at hstep
        injection hstep with h1
        subst h1
        exact hpresent
      | fatal e => simp [mhb, StepOut.finalFs] at hstep
      | ok hb fs1 =>
        simp only [mhb] at hstep
        have e1 := (mesaHeartbeats_ecg_edfs hsrc mhb).1 hpresent
        cases mx : mesaXml env args fs1 id with
        | error e => simp [mx, StepOut.finalFs] at hstep
        | ok p =>
          obtain ⟨x, fs2⟩ := p
          simp only [mx] at hstep
          have e2 := mesaXml_edfs mx
          cases hp : parse_nsrr_xml x with
          | error e => simp [hp, StepOut.finalFs] at hstep
          | ok parsed =>
            simp only [hp] at hstep
            cases mact : mesaActivity env args overlap fs2 id parsed with
            | skip fs3 =>
              simp only [mact, StepOut.finalFs] at hstep
              injection hstep with h1
              subst h1
              rw [mesaActivity_edfs_skip mact, e2]
              exact e1
            | fatal e => simp [mact, StepOut.finalFs] at hstep
            | ok counts fs3 =>
              simp only [mact] at hstep
              cases hsub : subjects.lookup id with
              | none => simp [hsub, StepOut.finalFs] at hstep
              | some sd =>
                simp only [hsub, StepOut.finalFs] at hstep
                injection hstep with h1
                subst h1
                rw [mesaActivity_edfs_ok mact, e2]
                exact e1
    · intro hnone hb fs1 hok
      have h := mesaHeartbeats_ecg_edfs hsrc hok
      exact ⟨h.2.1 hnone, h.2.2 hnone⟩
  · intro env args subjects fs hbVar id hsrc
    constructor
    · intro hpresent fs' hstep
      unfold shhsStep at hstep
      cases mhb : shhsHeartbeats env args fs hbVar id with
      | skip =>
        simp only [mhb, ShhsStepOut.finalFs] at hstep
        injection hstep with h1
        subst h1
        exact hpresent
      | fatal e => simp [mhb, ShhsStepOut.finalFs] at hstep
      | ok hbVar2 fs1 =>
        simp only [mhb] at hstep
        have e1 := (shhsHeartbeats_ecg_edfs hsrc mhb).1 hpresent
        cases mx : shhsXml env args fs1 id with
        | error e => simp [mx, ShhsStepOut.finalFs] at hstep
        | ok p =>
          obtain ⟨x, fs2⟩ := p
          simp only [mx] at hstep
          have e2 := shhsXml_edfs mx
          cases hp : parse_nsrr_xml x with
          | error e => simp [hp, ShhsStepOut.finalFs] at hstep
          | ok parsed =>
            simp only [hp] at hstep
            cases hbVar2 with
            | none => simp [ShhsStepOut.finalFs] at hstep
            | some hbts =>
              cases hsub : subjects.lookup (id.drop 6) with
              | none => simp [hsub, ShhsStepOut.finalFs] at hstep
              | some sd =>
                simp only [hsub, ShhsStepOut.finalFs] at hstep
                injection hstep with h1
                subst h1
                rw [e2]
                exact e1
    · intro hnone hbVar2 fs1 hok
      have h := shhsHeartbeats_ecg_edfs hsrc hok
      exact ⟨h.2.1 hnone, h.2.2 hnone⟩

/-- Counterexample to claim C1 as stated: a structurally invalid
annotation file terminates the whole iteration.  With two requested
records, the first with a malformed annotation file (no EpochLength) and
the second fully valid, the run yields nothing and ends with the parser's
exception — the valid second record, which the same environment yields
when requested alone, is lost. -/
theorem C1_cex_malformed_xml_aborts :
    (readMesaRun mesaEnvA mesaArgsOfflineAnn mesaFsAbort).yielded = [] ∧
    (readMesaRun mesaEnvA mesaArgsOfflineAnn mesaFsAbort).error =
      some "RuntimeError: EpochLength not found" ∧
    (readMesaRun mesaEnvA mesaArgsOfflineAnn mesaFsGood).yielded.map (·.id) =
      ["mesa-sleep-0002"] :=
  ⟨by with_unfolding_all rfl, by with_unfolding_all rfl,
   by with_unfolding_all rfl⟩

/-- Claim C1 (amended): in both `read_mesa` and `read_shhs`, a missing
heartbeat source (absent rpoints sidecar in annotation mode, absent cache
file in cached mode) and, in mesa, a failed activity resolution make the
driver skip the record and advance to the next requested id with the loop
state carried over; but in both readers a structurally invalid annotation
file raises out of the loop and terminates the whole iteration at that
record. -/
theorem C1_skip_vs_parse_abort :
    (∀ env args subjects overlap fs id,
      args.heartbeats_source = "annotation" → args.offline = true →
      fs.rpoints.lookup id = none →
      mesaStep env args subjects overlap fs id = .skip fs) ∧
    (∀ env args subjects overlap fs id,
      args.heartbeats_source = "cached" →
      fs.cachedHeartbeats.lookup id = none →
      mesaStep env args subjects overlap fs id = .skip fs) ∧
    (∀ env args subjects overlap fs id hb fs1 x fs2 parsed fs3,
      mesaHeartbeats env args fs id = .ok hb fs1 →
      mesaXml env args fs1 id = .ok (x, fs2) →
      parse_nsrr_xml x = .ok parsed →
      mesaActivity env args overlap fs2 id parsed = .skip fs3 →
      mesaStep env args subjects overlap fs id = .skip fs3) ∧
    (∀ env args subjects overlap fs id hb fs1 x fs2 e,
      mesaHeartbeats env args fs id = .ok hb fs1 →
      mesaXml env args fs1 id = .ok (x, fs2) →
      parse_nsrr_xml x = .error e →
      mesaStep env args subjects overlap fs id = .fatal e) ∧
    (∀ env args subjects overlap fs fs' id rest,
      mesaStep env args subjects overlap fs id = .skip fs' →
      mesaLoop env args subjects overlap fs (id :: rest) =
        mesaLoop env args subjects overlap fs' rest) ∧
    (∀ env args subjects overlap fs id rest e,
      mesaStep env args subjects overlap fs id = .fatal e →
      mesaLoop env args subjects overlap fs (id :: rest) = ⟨[], fs, some e⟩) ∧
    (∀ env args subjects fs hbVar id,
      args.heartbeats_source = "annotation" → args.offline = true →
      fs.rpoints.lookup id = none →
      shhsStep env args subjects fs hbVar id = .skip hbVar fs) ∧
    (∀ env args subjects fs hbVar fs' hbVar2 id rest,
      shhsStep env args subjects fs hbVar id = .skip hbVar2 fs' →
      shhsLoop env args subjects fs hbVar (id :: rest) =
        shhsLoop env args subjects fs' hbVar2 rest) ∧
    (∀ env args subjects fs hbVar id,
      args.heartbeats_source = "cached" →
      fs.cachedHeartbeats.lookup id = none →
      shhsStep env args subjects fs hbVar id = .skip hbVar fs) ∧
    (∀ env args subjects fs hbVar id hbVar2 fs1 x fs2 e,
      shhsHeartbeats env args fs hbVar id = .ok hbVar2 fs1 →
      shhsXml env args fs1 id = .ok (x, fs2) →
      parse_nsrr_xml x = .error e →
      shhsStep env args subjects fs hbVar id = .fatal e) ∧
    (∀ env args subjects fs hbVar id rest e,
      shhsStep env args subjects fs hbVar id = .fatal e →
      shhsLoop env args subjects fs hbVar (id :: rest) = ⟨[], fs, some e⟩) := by
  refine ⟨?_, ?_, ?_, ?_, ?_, ?_, ?_, ?_, ?_, ?_, ?_⟩
  · intro env args subjects overlap fs id hsrc hoff hlook
    have hhb : mesaHeartbeats env args fs id = .skip := by
      unfold mesaHeartbeats
      rw [hsrc, if_pos rfl]
      simp only [hlook, hoff, Bool.not_true, Bool.false_eq_true, if_false]
    unfold mesaStep
    rw [hhb]
  · intro env args subjects overlap fs id hsrc hlook
    have hhb : mesaHeartbeats env args fs id = .skip := by
      unfold mesaHeartbeats
      rw [hsrc, if_neg (by decide), if_pos rfl]
      simp only [hlook]
    unfold mesaStep
    rw [hhb]
  · intro env args subjects overlap fs id hb fs1 x fs2 parsed fs3 hhb hxml hp hact
    unfold mesaStep
    simp only [hhb, hxml, hp, hact]
  · intro env args subjects overlap fs id hb fs1 x fs2 e hhb hxml hp
    unfold mesaStep
    simp only [hhb, hxml, hp]
  · intro env args subjects overlap fs fs' id rest hstep
    conv_lhs => rw [mesaLoop]
    rw [hstep]
  · intro env args subjects overlap fs id rest e hstep
    conv_lhs => rw [mesaLoop]
    rw [hstep]
  · intro env args subjects fs hbVar id hsrc hoff hlook
    have hhb : shhsHeartbeats env args fs hbVar id = .skip := by
      unfold shhsHeartbeats
      rw [hsrc, if_pos rfl]
      simp only [hlook, hoff, Bool.not_true, Bool.false_eq_true, if_false]
    unfold shhsStep
    rw [hhb]
  · intro env args subjects fs hbVar fs' hbVar2 id rest hstep
    conv_lhs => rw [shhsLoop]
    rw [hstep]
  · intro env args subjects fs hbVar id hsrc hlook
    have hhb : shhsHeartbeats env args fs hbVar id = .skip := by
      unfold shhsHeartbeats
      rw [hsrc, if_neg (by decide), if_pos rfl]
      simp only [hlook]
    unfold shhsStep
    rw [hhb]
  · intro env args subjects fs hbVar id hbVar2 fs1 x fs2 e hhb hxml hp
    unfold shhsStep
    simp only [hhb, hxml, hp]
  · intro env args subjects fs hbVar id rest e hstep
    conv_lhs => rw [shhsLoop]
    rw [hstep]

/-- Witness for C1: record mesa-sleep-0001, whose rpoints sidecar is
absent from `mesaFsGood`, is skipped and the loop advances to
mesa-sleep-0002. -/
theorem C1_skip_vs_parse_abort_witness :
    mesaStep mesaEnvA mesaArgsOfflineAnn [] [] mesaFsGood "mesa-sleep-0001" =
      .skip mesaFsGood ∧
    mesaLoop mesaEnvA mesaArgsOfflineAnn [] [] mesaFsGood
        ["mesa-sleep-0001", "mesa-sleep-0002"] =
      mesaLoop mesaEnvA mesaArgsOfflineAnn [] [] mesaFsGood ["mesa-sleep-0002"] := by
  have h1 := C1_skip_vs_parse_abort.1 mesaEnvA mesaArgsOfflineAnn [] []
    mesaFsGood "mesa-sleep-0001" rfl rfl (by decide)
  exact ⟨h1, C1_skip_vs_parse_abort.2.2.2.2.1 mesaEnvA mesaArgsOfflineAnn [] []
    mesaFsGood mesaFsGood "mesa-sleep-0001" ["mesa-sleep-0002"] h1⟩

/-- Claim C4 evaluated at the failing input: `read_shhs` in cached mode
with a cached heartbeat array present yields nothing and dies with an
`UnboundLocalError` at the first yield, because the cached branch never
loads the file; by contrast the `read_mesa` ecg-then-cached round trip
reproduces the originally computed heartbeat times exactly. -/
theorem C4_shhs_cached_never_loaded :
    (readShhsRun shhsEnvA shhsArgsOfflineCached shhsFsCached).yielded = [] ∧
    (readShhsRun shhsEnvA shhsArgsOfflineCached shhsFsCached).error =
      some "UnboundLocalError: heartbeat_times" ∧
    (readMesaRun mesaEnvRT mesaArgsOfflineCached
        (readMesaRun mesaEnvRT mesaArgsOfflineEcg mesaFsRT).fs).yielded.map
        (·.heartbeat_times) =
      (readMesaRun mesaEnvRT mesaArgsOfflineEcg mesaFsRT).yielded.map
        (·.heartbeat_times) :=
  ⟨by with_unfolding_all rfl, by with_unfolding_all rfl,
   by with_unfolding_all rfl⟩

/-- Witness for C10: starting without a local `.edf` and with
`keep_edfs=True`, the downloaded `.edf` of record mesa-sleep-0001 is still
present after heartbeat detection. -/
theorem C10_edf_deletion_policy_witness :
    ((mesaFsDLout.edfs.lookup "mesa-sleep-0001").isSome = true) :=
  ((C10_edf_deletion_policy.1 mesaEnvDL mesaArgsEcgKeep [] [] mesaFsEmpty
      "mesa-sleep-0001" rfl).2 rfl [50, 100] mesaFsDLout
    (by with_unfolding_all rfl)).2 rfl

end SleepECG
